import Mathlib

/-!
# gen-projo: the project generator

A shallow embedding of `generator/generator.go`, `generator/templates.go` and the
project-type switch of `cmd/generate.go`.  The filesystem is an explicit state, the
calls into `os`, `path/filepath` and `text/template` are modelled by small total
functions, and the catalog of directories, file paths and template bodies is the
one written in the source.
-/

namespace GenProjo

/-! ## Configuration -/

/-- ProjectType is a string type in the source (`type ProjectType string`). -/
abbrev ProjectType := String

def ProjectTypeAPI : ProjectType := "api"
def ProjectTypeCLI : ProjectType := "cli"
def ProjectTypeMicro : ProjectType := "microservice"
def ProjectTypeLibrary : ProjectType := "library"

/-- ProjectConfig holds configuration for project generation.  The source field
`Type` is spelled `ProjType` here because `Type` is reserved. -/
structure ProjectConfig where
  Name : String
  Module : String
  ProjType : ProjectType
  Description : String
  Author : String
  GoVersion : String
  OutputPath : String
  deriving DecidableEq

/-- ProjectStructure defines the directory and file structure.  `Files` is a Go map
literal; it is kept as the list of its key/value pairs in the order they are written,
and `Generate` below is run on an arbitrary enumeration of it. -/
structure ProjectStructure where
  Directories : List String
  Files : List (String × String)
  deriving DecidableEq

/-- Generator handles project structure generation.  The source field `structure`
is spelled `structure_` here because `structure` is reserved. -/
structure Generator where
  config : ProjectConfig
  structure_ : ProjectStructure
  deriving DecidableEq

/-! ## Template bodies (`generator/templates.go`) -/

/-- Concatenation of the lines of a template body. -/
def joinLines (lines : List String) : String :=
  lines.foldr (fun line rest => line ++ rest) ""

/-- Template body `goModTemplate` of `generator/templates.go`. -/
def goModTemplate : String := joinLines [
  "module \x7b\x7b.Module\x7d\x7d\n",
  "\n",
  "go \x7b\x7b.GoVersion\x7d\x7d\n",
  "\n",
  "require (\n",
  "\t// Add your dependencies here\n",
  ")\n"]

/-- Template body `readmeTemplate` of `generator/templates.go`. -/
def readmeTemplate : String := joinLines [
  "# \x7b\x7b.Name\x7d\x7d\n",
  "\n",
  "\x7b\x7b.Description\x7d\x7d\n",
  "\n",
  "## Author\n",
  "\n",
  "\x7b\x7b.Author\x7d\x7d\n",
  "\n",
  "## Getting Started\n",
  "\n",
  "### Prerequisites\n",
  "\n",
  "- Go \x7b\x7b.GoVersion\x7d\x7d or higher\n",
  "\n",
  "### Installation\n",
  "\n",
  "\x60\x60\x60bash\n",
  "go get \x7b\x7b.Module\x7d\x7d\n",
  "\x60\x60\x60\n",
  "\n",
  "### Usage\n",
  "\n",
  "\x60\x60\x60bash\n",
  "# Build the project\n",
  "make build\n",
  "\n",
  "# Run tests\n",
  "make test\n",
  "\n",
  "# Run the application\n",
  "make run\n",
  "\x60\x60\x60\n",
  "\n",
  "## Project Structure\n",
  "\n",
  "\x60\x60\x60\n",
  "\x7b\x7b.Name\x7d\x7d/\n",
  "├── cmd/          # Application entrypoints\n",
  "├── internal/     # Private application code\n",
  "├── pkg/          # Public libraries\n",
  "└── docs/         # Documentation\n",
  "\x60\x60\x60\n",
  "\n",
  "## License\n",
  "\n",
  "MIT License\n"]

/-- Template body `gitignoreTemplate` of `generator/templates.go`. -/
def gitignoreTemplate : String := joinLines [
  "# Binaries for programs and plugins\n",
  "*.exe\n",
  "*.exe~\n",
  "*.dll\n",
  "*.so\n",
  "*.dylib\n",
  "\n",
  "# Test binary, built with \x60go test -c\x60\n",
  "*.test\n",
  "\n",
  "# Output of the go coverage tool\n",
  "*.out\n",
  "\n",
  "# Go workspace file\n",
  "go.work\n",
  "\n",
  "# Dependency directories\n",
  "vendor/\n",
  "\n",
  "# IDEs\n",
  ".idea/\n",
  ".vscode/\n",
  "*.swp\n",
  "*.swo\n",
  "*~\n",
  "\n",
  "# OS\n",
  ".DS_Store\n",
  "Thumbs.db\n",
  "\n",
  "# Build artifacts\n",
  "bin/\n",
  "dist/\n",
  "build/\n",
  "\n",
  "# Environment variables\n",
  ".env\n",
  ".env.local\n",
  ".env.*.local\n",
  "\n",
  "# Logs\n",
  "*.log\n",
  "\n",
  "# Temporary files\n",
  "tmp/\n",
  "temp/\n"]

/-- Template body `makefileAPITemplate` of `generator/templates.go`. -/
def makefileAPITemplate : String := joinLines [
  ".PHONY: build run test clean docker-build docker-run\n",
  "\n",
  "APP_NAME=\x7b\x7b.Name\x7d\x7d\n",
  "VERSION?=latest\n",
  "DOCKER_IMAGE=\x7b\x7b.Name\x7d\x7d:$\x7bVERSION\x7d\n",
  "\n",
  "build:\n",
  "\tgo build -o bin/$\x7bAPP_NAME\x7d cmd/api/main.go\n",
  "\n",
  "run:\n",
  "\tgo run cmd/api/main.go\n",
  "\n",
  "test:\n",
  "\tgo test -v -race -coverprofile=coverage.out ./...\n",
  "\n",
  "coverage:\n",
  "\tgo tool cover -html=coverage.out\n",
  "\n",
  "clean:\n",
  "\trm -rf bin/\n",
  "\trm -f coverage.out\n",
  "\n",
  "lint:\n",
  "\tgolangci-lint run\n",
  "\n",
  "docker-build:\n",
  "\tdocker build -t $\x7bDOCKER_IMAGE\x7d .\n",
  "\n",
  "docker-run:\n",
  "\tdocker run -p 8080:8080 $\x7bDOCKER_IMAGE\x7d\n",
  "\n",
  "migrate-up:\n",
  "\t# Add your migration command here\n",
  "\n",
  "migrate-down:\n",
  "\t# Add your migration command here\n",
  "\n",
  "help:\n",
  "\t@echo \"Available targets:\"\n",
  "\t@echo \"  build        - Build the application\"\n",
  "\t@echo \"  run          - Run the application\"\n",
  "\t@echo \"  test         - Run tests\"\n",
  "\t@echo \"  coverage     - Show test coverage\"\n",
  "\t@echo \"  clean        - Clean build artifacts\"\n",
  "\t@echo \"  lint         - Run linter\"\n",
  "\t@echo \"  docker-build - Build Docker image\"\n",
  "\t@echo \"  docker-run   - Run Docker container\"\n"]

/-- Template body `makefileCLITemplate` of `generator/templates.go`. -/
def makefileCLITemplate : String := joinLines [
  ".PHONY: build install test clean\n",
  "\n",
  "APP_NAME=\x7b\x7b.Name\x7d\x7d\n",
  "\n",
  "build:\n",
  "\tgo build -o bin/$\x7bAPP_NAME\x7d cmd/main.go\n",
  "\n",
  "install:\n",
  "\tgo install cmd/main.go\n",
  "\n",
  "test:\n",
  "\tgo test -v ./...\n",
  "\n",
  "clean:\n",
  "\trm -rf bin/\n",
  "\n",
  "lint:\n",
  "\tgolangci-lint run\n"]

/-- Template body `makefileMicroTemplate` of `generator/templates.go`. -/
def makefileMicroTemplate : String := joinLines [
  ".PHONY: build run test proto docker-build docker-run k8s-deploy\n",
  "\n",
  "APP_NAME=\x7b\x7b.Name\x7d\x7d\n",
  "VERSION?=latest\n",
  "DOCKER_IMAGE=\x7b\x7b.Name\x7d\x7d:$\x7bVERSION\x7d\n",
  "\n",
  "build:\n",
  "\tgo build -o bin/$\x7bAPP_NAME\x7d cmd/server/main.go\n",
  "\n",
  "run:\n",
  "\tgo run cmd/server/main.go\n",
  "\n",
  "test:\n",
  "\tgo test -v -race ./...\n",
  "\n",
  "proto:\n",
  "\tprotoc --go_out=. --go-grpc_out=. proto/*.proto\n",
  "\n",
  "docker-build:\n",
  "\tdocker build -t $\x7bDOCKER_IMAGE\x7d .\n",
  "\n",
  "docker-run:\n",
  "\tdocker run -p 8080:8080 -p 9090:9090 $\x7bDOCKER_IMAGE\x7d\n",
  "\n",
  "k8s-deploy:\n",
  "\tkubectl apply -f deployments/k8s/\n",
  "\n",
  "k8s-delete:\n",
  "\tkubectl delete -f deployments/k8s/\n",
  "\n",
  "clean:\n",
  "\trm -rf bin/\n"]

/-- Template body `makefileLibTemplate` of `generator/templates.go`. -/
def makefileLibTemplate : String := joinLines [
  ".PHONY: test coverage lint example\n",
  "\n",
  "test:\n",
  "\tgo test -v -race ./...\n",
  "\n",
  "coverage:\n",
  "\tgo test -v -race -coverprofile=coverage.out ./...\n",
  "\tgo tool cover -html=coverage.out\n",
  "\n",
  "lint:\n",
  "\tgolangci-lint run\n",
  "\n",
  "example:\n",
  "\tgo run examples/main.go\n"]

/-- Template body `mainAPITemplate` of `generator/templates.go`. -/
def mainAPITemplate : String := joinLines [
  "package main\n",
  "\n",
  "import (\n",
  "\t\"context\"\n",
  "\t\"log\"\n",
  "\t\"net/http\"\n",
  "\t\"os\"\n",
  "\t\"os/signal\"\n",
  "\t\"syscall\"\n",
  "\t\"time\"\n",
  "\n",
  "\t\"\x7b\x7b.Module\x7d\x7d/internal/config\"\n",
  "\t\"\x7b\x7b.Module\x7d\x7d/internal/handler\"\n",
  "\t\"\x7b\x7b.Module\x7d\x7d/internal/middleware\"\n",
  "\t\"\x7b\x7b.Module\x7d\x7d/internal/repository\"\n",
  "\t\"\x7b\x7b.Module\x7d\x7d/internal/service\"\n",
  ")\n",
  "\n",
  "func main() \x7b\n",
  "\t// Load configuration\n",
  "\tcfg, err := config.Load()\n",
  "\tif err != nil \x7b\n",
  "\t\tlog.Fatalf(\"Failed to load config: %v\", err)\n",
  "\t\x7d\n",
  "\n",
  "\t// Initialize repository\n",
  "\trepo := repository.New()\n",
  "\n",
  "\t// Initialize service\n",
  "\tsvc := service.New(repo)\n",
  "\n",
  "\t// Initialize handler\n",
  "\th := handler.New(svc)\n",
  "\n",
  "\t// Setup router\n",
  "\tmux := http.NewServeMux()\n",
  "\tmux.HandleFunc(\"/health\", h.Health)\n",
  "\tmux.HandleFunc(\"/api/v1/\", h.HandleAPI)\n",
  "\n",
  "\t// Apply middleware\n",
  "\thandler := middleware.Logger(mux)\n",
  "\thandler = middleware.CORS(handler)\n",
  "\n",
  "\t// Create server\n",
  "\tsrv := &http.Server\x7b\n",
  "\t\tAddr:         cfg.ServerAddress,\n",
  "\t\tHandler:      handler,\n",
  "\t\tReadTimeout:  15 * time.Second,\n",
  "\t\tWriteTimeout: 15 * time.Second,\n",
  "\t\tIdleTimeout:  60 * time.Second,\n",
  "\t\x7d\n",
  "\n",
  "\t// Start server in goroutine\n",
  "\tgo func() \x7b\n",
  "\t\tlog.Printf(\"Server starting on %s\", cfg.ServerAddress)\n",
  "\t\tif err := srv.ListenAndServe(); err != nil && err != http.ErrServerClosed \x7b\n",
  "\t\t\tlog.Fatalf(\"Server failed: %v\", err)\n",
  "\t\t\x7d\n",
  "\t\x7d()\n",
  "\n",
  "\t// Graceful shutdown\n",
  "\tquit := make(chan os.Signal, 1)\n",
  "\tsignal.Notify(quit, syscall.SIGINT, syscall.SIGTERM)\n",
  "\t<-quit\n",
  "\n",
  "\tlog.Println(\"Shutting down server...\")\n",
  "\n",
  "\tctx, cancel := context.WithTimeout(context.Background(), 30*time.Second)\n",
  "\tdefer cancel()\n",
  "\n",
  "\tif err := srv.Shutdown(ctx); err != nil \x7b\n",
  "\t\tlog.Fatalf(\"Server forced to shutdown: %v\", err)\n",
  "\t\x7d\n",
  "\n",
  "\tlog.Println(\"Server exited\")\n",
  "\x7d\n"]

/-- Template body `mainCLITemplate` of `generator/templates.go`. -/
def mainCLITemplate : String := joinLines [
  "package main\n",
  "\n",
  "import (\n",
  "\t\"fmt\"\n",
  "\t\"os\"\n",
  "\n",
  "\t\"\x7b\x7b.Module\x7d\x7d/internal/command\"\n",
  ")\n",
  "\n",
  "func main() \x7b\n",
  "\tif err := command.Execute(); err != nil \x7b\n",
  "\t\tfmt.Fprintf(os.Stderr, \"Error: %v\\n\", err)\n",
  "\t\tos.Exit(1)\n",
  "\t\x7d\n",
  "\x7d\n"]

/-- Template body `mainMicroTemplate` of `generator/templates.go`. -/
def mainMicroTemplate : String := joinLines [
  "package main\n",
  "\n",
  "import (\n",
  "\t\"context\"\n",
  "\t\"log\"\n",
  "\t\"net\"\n",
  "\t\"net/http\"\n",
  "\t\"os\"\n",
  "\t\"os/signal\"\n",
  "\t\"syscall\"\n",
  "\n",
  "\t\"\x7b\x7b.Module\x7d\x7d/internal/config\"\n",
  "\t\"\x7b\x7b.Module\x7d\x7d/internal/handler\"\n",
  "\t\"\x7b\x7b.Module\x7d\x7d/internal/repository\"\n",
  "\t\"\x7b\x7b.Module\x7d\x7d/internal/service\"\n",
  ")\n",
  "\n",
  "func main() \x7b\n",
  "\tcfg, err := config.Load()\n",
  "\tif err != nil \x7b\n",
  "\t\tlog.Fatalf(\"Failed to load config: %v\", err)\n",
  "\t\x7d\n",
  "\n",
  "\t// Initialize layers\n",
  "\trepo := repository.New()\n",
  "\tsvc := service.New(repo)\n",
  "\th := handler.New(svc)\n",
  "\n",
  "\t// Start HTTP server\n",
  "\tgo func() \x7b\n",
  "\t\tmux := http.NewServeMux()\n",
  "\t\tmux.HandleFunc(\"/health\", h.Health)\n",
  "\t\tlog.Printf(\"HTTP server listening on %s\", cfg.HTTPAddress)\n",
  "\t\tif err := http.ListenAndServe(cfg.HTTPAddress, mux); err != nil \x7b\n",
  "\t\t\tlog.Fatalf(\"HTTP server failed: %v\", err)\n",
  "\t\t\x7d\n",
  "\t\x7d()\n",
  "\n",
  "\t// Start gRPC server (if needed)\n",
  "\tgo func() \x7b\n",
  "\t\tlis, err := net.Listen(\"tcp\", cfg.GRPCAddress)\n",
  "\t\tif err != nil \x7b\n",
  "\t\t\tlog.Fatalf(\"Failed to listen: %v\", err)\n",
  "\t\t\x7d\n",
  "\t\tlog.Printf(\"gRPC server listening on %s\", cfg.GRPCAddress)\n",
  "\t\t// Initialize gRPC server here\n",
  "\t\t_ = lis\n",
  "\t\x7d()\n",
  "\n",
  "\t// Graceful shutdown\n",
  "\tquit := make(chan os.Signal, 1)\n",
  "\tsignal.Notify(quit, syscall.SIGINT, syscall.SIGTERM)\n",
  "\t<-quit\n",
  "\n",
  "\tlog.Println(\"Shutting down servers...\")\n",
  "\t// Add cleanup logic\n",
  "\x7d\n"]

/-- Template body `configTemplate` of `generator/templates.go`. -/
def configTemplate : String := joinLines [
  "package config\n",
  "\n",
  "import (\n",
  "\t\"os\"\n",
  ")\n",
  "\n",
  "type Config struct \x7b\n",
  "\tServerAddress string\n",
  "\tHTTPAddress   string\n",
  "\tGRPCAddress   string\n",
  "\tEnvironment   string\n",
  "\x7d\n",
  "\n",
  "func Load() (*Config, error) \x7b\n",
  "\treturn &Config\x7b\n",
  "\t\tServerAddress: getEnv(\"SERVER_ADDRESS\", \":8080\"),\n",
  "\t\tHTTPAddress:   getEnv(\"HTTP_ADDRESS\", \":8080\"),\n",
  "\t\tGRPCAddress:   getEnv(\"GRPC_ADDRESS\", \":9090\"),\n",
  "\t\tEnvironment:   getEnv(\"ENVIRONMENT\", \"development\"),\n",
  "\t\x7d, nil\n",
  "\x7d\n",
  "\n",
  "func getEnv(key, defaultValue string) string \x7b\n",
  "\tif value := os.Getenv(key); value != \"\" \x7b\n",
  "\t\treturn value\n",
  "\t\x7d\n",
  "\treturn defaultValue\n",
  "\x7d\n"]

/-- Template body `handlerTemplate` of `generator/templates.go`. -/
def handlerTemplate : String := joinLines [
  "package handler\n",
  "\n",
  "import (\n",
  "\t\"encoding/json\"\n",
  "\t\"net/http\"\n",
  "\n",
  "\t\"\x7b\x7b.Module\x7d\x7d/internal/service\"\n",
  "\t\"\x7b\x7b.Module\x7d\x7d/pkg/response\"\n",
  ")\n",
  "\n",
  "type Handler struct \x7b\n",
  "\tservice *service.Service\n",
  "\x7d\n",
  "\n",
  "func New(svc *service.Service) *Handler \x7b\n",
  "\treturn &Handler\x7b\n",
  "\t\tservice: svc,\n",
  "\t\x7d\n",
  "\x7d\n",
  "\n",
  "func (h *Handler) Health(w http.ResponseWriter, r *http.Request) \x7b\n",
  "\tresponse.JSON(w, http.StatusOK, map[string]string\x7b\n",
  "\t\t\"status\": \"healthy\",\n",
  "\t\x7d)\n",
  "\x7d\n",
  "\n",
  "func (h *Handler) HandleAPI(w http.ResponseWriter, r *http.Request) \x7b\n",
  "\t// Implement your API handlers here\n",
  "\tresponse.JSON(w, http.StatusOK, map[string]string\x7b\n",
  "\t\t\"message\": \"API endpoint\",\n",
  "\t\x7d)\n",
  "\x7d\n"]

/-- Template body `serviceTemplate` of `generator/templates.go`. -/
def serviceTemplate : String := joinLines [
  "package service\n",
  "\n",
  "import (\n",
  "\t\"\x7b\x7b.Module\x7d\x7d/internal/repository\"\n",
  ")\n",
  "\n",
  "type Service struct \x7b\n",
  "\trepo *repository.Repository\n",
  "\x7d\n",
  "\n",
  "func New(repo *repository.Repository) *Service \x7b\n",
  "\treturn &Service\x7b\n",
  "\t\trepo: repo,\n",
  "\t\x7d\n",
  "\x7d\n",
  "\n",
  "// Add your business logic methods here\n"]

/-- Template body `repositoryTemplate` of `generator/templates.go`. -/
def repositoryTemplate : String := joinLines [
  "package repository\n",
  "\n",
  "type Repository struct \x7b\n",
  "\t// Add your database connections here\n",
  "\x7d\n",
  "\n",
  "func New() *Repository \x7b\n",
  "\treturn &Repository\x7b\x7d\n",
  "\x7d\n",
  "\n",
  "// Add your data access methods here\n"]

/-- Template body `modelTemplate` of `generator/templates.go`. -/
def modelTemplate : String := joinLines [
  "package model\n",
  "\n",
  "// Add your domain models here\n",
  "\n",
  "type Example struct \x7b\n",
  "\tID   string \x60json:\"id\"\x60\n",
  "\tName string \x60json:\"name\"\x60\n",
  "\x7d\n"]

/-- Template body `middlewareTemplate` of `generator/templates.go`. -/
def middlewareTemplate : String := joinLines [
  "package middleware\n",
  "\n",
  "import (\n",
  "\t\"log\"\n",
  "\t\"net/http\"\n",
  "\t\"time\"\n",
  ")\n",
  "\n",
  "func Logger(next http.Handler) http.Handler \x7b\n",
  "\treturn http.HandlerFunc(func(w http.ResponseWriter, r *http.Request) \x7b\n",
  "\t\tstart := time.Now()\n",
  "\t\tnext.ServeHTTP(w, r)\n",
  "\t\tlog.Printf(\"%s %s %v\", r.Method, r.URL.Path, time.Since(start))\n",
  "\t\x7d)\n",
  "\x7d\n",
  "\n",
  "func CORS(next http.Handler) http.Handler \x7b\n",
  "\treturn http.HandlerFunc(func(w http.ResponseWriter, r *http.Request) \x7b\n",
  "\t\tw.Header().Set(\"Access-Control-Allow-Origin\", \"*\")\n",
  "\t\tw.Header().Set(\"Access-Control-Allow-Methods\", \"GET, POST, PUT, DELETE, OPTIONS\")\n",
  "\t\tw.Header().Set(\"Access-Control-Allow-Headers\", \"Content-Type, Authorization\")\n",
  "\n",
  "\t\tif r.Method == http.MethodOptions \x7b\n",
  "\t\t\tw.WriteHeader(http.StatusOK)\n",
  "\t\t\treturn\n",
  "\t\t\x7d\n",
  "\n",
  "\t\tnext.ServeHTTP(w, r)\n",
  "\t\x7d)\n",
  "\x7d\n"]

/-- Template body `responseTemplate` of `generator/templates.go`. -/
def responseTemplate : String := joinLines [
  "package response\n",
  "\n",
  "import (\n",
  "\t\"encoding/json\"\n",
  "\t\"net/http\"\n",
  ")\n",
  "\n",
  "type Response struct \x7b\n",
  "\tSuccess bool        \x60json:\"success\"\x60\n",
  "\tData    interface\x7b\x7d \x60json:\"data,omitempty\"\x60\n",
  "\tError   string      \x60json:\"error,omitempty\"\x60\n",
  "\x7d\n",
  "\n",
  "func JSON(w http.ResponseWriter, status int, data interface\x7b\x7d) \x7b\n",
  "\tw.Header().Set(\"Content-Type\", \"application/json\")\n",
  "\tw.WriteHeader(status)\n",
  "\n",
  "\tresp := Response\x7b\n",
  "\t\tSuccess: status < 400,\n",
  "\t\tData:    data,\n",
  "\t\x7d\n",
  "\n",
  "\tjson.NewEncoder(w).Encode(resp)\n",
  "\x7d\n",
  "\n",
  "func Error(w http.ResponseWriter, status int, message string) \x7b\n",
  "\tw.Header().Set(\"Content-Type\", \"application/json\")\n",
  "\tw.WriteHeader(status)\n",
  "\n",
  "\tresp := Response\x7b\n",
  "\t\tSuccess: false,\n",
  "\t\tError:   message,\n",
  "\t\x7d\n",
  "\n",
  "\tjson.NewEncoder(w).Encode(resp)\n",
  "\x7d\n"]

/-- Template body `cliRootTemplate` of `generator/templates.go`. -/
def cliRootTemplate : String := joinLines [
  "package command\n",
  "\n",
  "import (\n",
  "\t\"fmt\"\n",
  ")\n",
  "\n",
  "func Execute() error \x7b\n",
  "\t// Implement your CLI commands here\n",
  "\tfmt.Println(\"\x7b\x7b.Name\x7d\x7d CLI\")\n",
  "\treturn nil\n",
  "\x7d\n"]

/-- Template body `apiDocsTemplate` of `generator/templates.go`. -/
def apiDocsTemplate : String := joinLines [
  "# API Documentation\n",
  "\n",
  "## Endpoints\n",
  "\n",
  "### Health Check\n",
  "\n",
  "\x60\x60\x60\n",
  "GET /health\n",
  "\x60\x60\x60\n",
  "\n",
  "Returns the health status of the service.\n",
  "\n",
  "### API v1\n",
  "\n",
  "\x60\x60\x60\n",
  "GET /api/v1/\n",
  "\x60\x60\x60\n",
  "\n",
  "Main API endpoint.\n"]

/-- Template body `dockerfileTemplate` of `generator/templates.go`. -/
def dockerfileTemplate : String := joinLines [
  "FROM golang:\x7b\x7b.GoVersion\x7d\x7d-alpine AS builder\n",
  "\n",
  "WORKDIR /app\n",
  "\n",
  "COPY go.mod go.sum ./\n",
  "RUN go mod download\n",
  "\n",
  "COPY . .\n",
  "RUN CGO_ENABLED=0 GOOS=linux go build -o /\x7b\x7b.Name\x7d\x7d cmd/server/main.go\n",
  "\n",
  "FROM alpine:latest\n",
  "\n",
  "RUN apk --no-cache add ca-certificates\n",
  "\n",
  "WORKDIR /root/\n",
  "\n",
  "COPY --from=builder /\x7b\x7b.Name\x7d\x7d .\n",
  "\n",
  "EXPOSE 8080 9090\n",
  "\n",
  "CMD [\"./\x7b\x7b.Name\x7d\x7d\"]\n"]

/-- Template body `k8sDeploymentTemplate` of `generator/templates.go`. -/
def k8sDeploymentTemplate : String := joinLines [
  "apiVersion: apps/v1\n",
  "kind: Deployment\n",
  "metadata:\n",
  "  name: \x7b\x7b.Name\x7d\x7d\n",
  "spec:\n",
  "  replicas: 3\n",
  "  selector:\n",
  "    matchLabels:\n",
  "      app: \x7b\x7b.Name\x7d\x7d\n",
  "  template:\n",
  "    metadata:\n",
  "      labels:\n",
  "        app: \x7b\x7b.Name\x7d\x7d\n",
  "    spec:\n",
  "      containers:\n",
  "      - name: \x7b\x7b.Name\x7d\x7d\n",
  "        image: \x7b\x7b.Name\x7d\x7d:latest\n",
  "        ports:\n",
  "        - containerPort: 8080\n",
  "        - containerPort: 9090\n",
  "        env:\n",
  "        - name: ENVIRONMENT\n",
  "          value: \"production\"\n"]

/-- Template body `k8sServiceTemplate` of `generator/templates.go`. -/
def k8sServiceTemplate : String := joinLines [
  "apiVersion: v1\n",
  "kind: Service\n",
  "metadata:\n",
  "  name: \x7b\x7b.Name\x7d\x7d\n",
  "spec:\n",
  "  selector:\n",
  "    app: \x7b\x7b.Name\x7d\x7d\n",
  "  ports:\n",
  "  - name: http\n",
  "    port: 80\n",
  "    targetPort: 8080\n",
  "  - name: grpc\n",
  "    port: 9090\n",
  "    targetPort: 9090\n",
  "  type: LoadBalancer\n"]

/-- Template body `libraryMainTemplate` of `generator/templates.go`. -/
def libraryMainTemplate : String := joinLines [
  "package \x7b\x7b.Name\x7d\x7d\n",
  "\n",
  "// Add your library implementation here\n",
  "\n",
  "type Client struct \x7b\n",
  "\t// Configuration fields\n",
  "\x7d\n",
  "\n",
  "func New() *Client \x7b\n",
  "\treturn &Client\x7b\x7d\n",
  "\x7d\n"]

/-- Template body `libraryExampleTemplate` of `generator/templates.go`. -/
def libraryExampleTemplate : String := joinLines [
  "package main\n",
  "\n",
  "import (\n",
  "\t\"fmt\"\n",
  "\n",
  "\t\"\x7b\x7b.Module\x7d\x7d\"\n",
  ")\n",
  "\n",
  "func main() \x7b\n",
  "\tclient := \x7b\x7b.Name\x7d\x7d.New()\n",
  "\tfmt.Printf(\"\x7b\x7b.Name\x7d\x7d client: %+v\\n\", client)\n",
  "\x7d\n"]

/-- Template body `usageDocsTemplate` of `generator/templates.go`. -/
def usageDocsTemplate : String := joinLines [
  "# Usage Guide\n",
  "\n",
  "## Installation\n",
  "\n",
  "\x60\x60\x60bash\n",
  "go get \x7b\x7b.Module\x7d\x7d\n",
  "\x60\x60\x60\n",
  "\n",
  "## Basic Usage\n",
  "\n",
  "\x60\x60\x60go\n",
  "package main\n",
  "\n",
  "import \"\x7b\x7b.Module\x7d\x7d\"\n",
  "\n",
  "func main() \x7b\n",
  "    client := \x7b\x7b.Name\x7d\x7d.New()\n",
  "    // Use the client\n",
  "\x7d\n",
  "\x60\x60\x60\n",
  "\n",
  "## Examples\n",
  "\n",
  "See the [examples](../examples/) directory for more usage examples.\n"]
/-! ## Templates (`text/template`)

The catalog only uses plain text and field actions such as `{{.Name}}`.  The model
covers that fragment: text is copied, an action must be a single field reference,
and anything else between the delimiters is reported as a parse error, also where the
library would accept it (`{{.}}`, trim markers, comments, pipelines, chained fields).
It is applied to the bodies of the catalog only.  What Generate does when a body does
not parse is stated further down for any parser, with `GenerateWith`. -/

/-- A parsed template is a sequence of text and field nodes. -/
inductive TNode where
  | text (s : String)
  | field (name : String)
  deriving DecidableEq

/-- Characters allowed in a field name. -/
def isIdentChar (c : Char) : Bool :=
  c.isAlphanum || c == '_'

/-- Drop leading blanks. -/
def dropBlanks : List Char → List Char
  | [] => []
  | c :: cs => if c = ' ' ∨ c = '\t' then dropBlanks cs else c :: cs

/-- Read the body of an action: blanks, a dot, an identifier, blanks.  A digit right
after the dot starts a number, not a field, and is refused. -/
def parseAction (body : List Char) : Option String :=
  match dropBlanks body with
  | '.' :: cs =>
    let ident := cs.takeWhile isIdentChar
    let tail := dropBlanks (cs.dropWhile isIdentChar)
    if ident ≠ [] ∧ ident.head?.any Char.isDigit = false ∧ tail = [] then
      some (String.mk ident)
    else none
  | _ => none

/-- The text node for the characters collected so far (none when empty). -/
def textNode (acc : List Char) : List TNode :=
  if acc = [] then [] else [TNode.text (String.mk acc.reverse)]

/-- One pass over the body.  `inAction` tells whether the scanner is between the
delimiters; `acc` holds the characters of the current piece, last one first. -/
def parseAux : List Char → Bool → List Char → Except String (List TNode)
  | [], false, acc => .ok (textNode acc)
  | [], true, _ => .error "unclosed action"
  | [c], false, acc => .ok (textNode (c :: acc))
  | [_], true, _ => .error "unclosed action"
  | c :: d :: rest, false, acc =>
    if c = '{' ∧ d = '{' then
      match parseAux rest true [] with
      | .ok ns => .ok (textNode acc ++ ns)
      | .error e => .error e
    else parseAux (d :: rest) false (c :: acc)
  | c :: d :: rest, true, acc =>
    if c = '}' ∧ d = '}' then
      match parseAction acc.reverse with
      | some f =>
        match parseAux rest false [] with
        | .ok ns => .ok (TNode.field f :: ns)
        | .error e => .error e
      | none => .error ("bad action: " ++ String.mk acc.reverse)
    else parseAux (d :: rest) true (c :: acc)

/-- Model of `template.New(name).Parse(content)`. -/
def parseTemplate (content : String) : Except String (List TNode) :=
  parseAux content.data false []

/-- The value of a field of the configuration, by exact name. -/
def ProjectConfig.lookup (c : ProjectConfig) (name : String) : Option String :=
  if name = "Name" then some c.Name
  else if name = "Module" then some c.Module
  else if name = "Type" then some c.ProjType
  else if name = "Description" then some c.Description
  else if name = "Author" then some c.Author
  else if name = "GoVersion" then some c.GoVersion
  else if name = "OutputPath" then some c.OutputPath
  else none

/-- Model of `tmpl.Execute(file, config)`: the text written to the file, and the
error that stopped the execution if there was one. -/
def execute (c : ProjectConfig) : List TNode → String × Option String
  | [] => ("", none)
  | TNode.text s :: ns => (s ++ (execute c ns).1, (execute c ns).2)
  | TNode.field f :: ns =>
    match c.lookup f with
    | some v => (v ++ (execute c ns).1, (execute c ns).2)
    | none => ("", some ("can\x27t evaluate field " ++ f ++ " in type generator.ProjectConfig"))

/-! ## Paths (`path/filepath`) -/

/-- A cleaned absolute path: its components, from the root down. -/
abbrev Path := List String

/-- Split at every slash; `cur` holds the current component, last character first. -/
def splitSlash : List Char → List Char → List String
  | [], cur => [String.mk cur.reverse]
  | c :: cs, cur =>
    if c = '/' then String.mk cur.reverse :: splitSlash cs [] else splitSlash cs (c :: cur)

/-- The slash-separated components of a path string. -/
def components (s : String) : List String :=
  splitSlash s.data []

/-- What `filepath.Clean` does with one more component: empty and `.` are dropped,
`..` removes the last component (and is dropped at the root). -/
def joinStep (p : Path) (c : String) : Path :=
  if c = "" ∨ c = "." then p
  else if c = ".." then p.dropLast
  else p ++ [c]

/-- Model of `filepath.Join(p, elem)` on a cleaned absolute `p`. -/
def join (p : Path) (elem : String) : Path :=
  (components elem).foldl joinStep p

/-- The path as the operating system prints it. -/
def pathString (p : Path) : String :=
  "/" ++ "/".intercalate p

/-! ## Filesystem (`os`) -/

/-- What a path can hold. -/
inductive Node where
  | dir
  | file (content : String)
  deriving DecidableEq

/-- The filesystem state: what every path holds, if anything. -/
abbrev FS := Path → Option Node

/-- The root always exists and is a directory. -/
def stat (fs : FS) (p : Path) : Option Node :=
  if p = [] then some Node.dir else fs p

/-- Put a node at a path. -/
def FS.set (fs : FS) (p : Path) (n : Node) : FS :=
  fun q => if q = p then some n else fs q

/-- The error numbers the model can report. -/
inductive Errno where
  | ENOENT
  | EEXIST
  | ENOTDIR
  | EISDIR
  deriving DecidableEq

/-- The text of an error number. -/
def Errno.message : Errno → String
  | .ENOENT => "no such file or directory"
  | .EEXIST => "file exists"
  | .ENOTDIR => "not a directory"
  | .EISDIR => "is a directory"

/-- Model of `*fs.PathError`. -/
structure PathError where
  op : String
  path : Path
  errno : Errno
  deriving DecidableEq

/-- Model of `(*PathError).Error`. -/
def PathError.message (e : PathError) : String :=
  e.op ++ " " ++ pathString e.path ++ ": " ++ e.errno.message

/-- Model of `os.Mkdir`: the parent must be a directory and the path free. -/
def mkdir (fs : FS) (p : Path) : Except PathError FS :=
  match stat fs p.dropLast with
  | none => .error ⟨"mkdir", p, .ENOENT⟩
  | some (Node.file _) => .error ⟨"mkdir", p, .ENOTDIR⟩
  | some Node.dir =>
    match stat fs p with
    | none => .ok (fs.set p Node.dir)
    | some _ => .error ⟨"mkdir", p, .EEXIST⟩

/-- Model of `os.MkdirAll`, on the path written leaf first.  As in the library: an
existing directory is success, an existing file is `ENOTDIR`, and otherwise the parent
is made first and then the path itself.  The state reached is returned with the error. -/
def mkdirAllRev (fs : FS) : List String → FS × Option PathError
  | [] => (fs, none)
  | c :: parent =>
    match stat fs (c :: parent).reverse with
    | some Node.dir => (fs, none)
    | some (Node.file _) => (fs, some ⟨"mkdir", (c :: parent).reverse, .ENOTDIR⟩)
    | none =>
      match mkdirAllRev fs parent with
      | (fs1, some e) => (fs1, some e)
      | (fs1, none) =>
        match mkdir fs1 (c :: parent).reverse with
        | .ok fs2 => (fs2, none)
        | .error e => (fs1, some e)

/-- Model of `os.MkdirAll(path, 0755)`. -/
def mkdirAll (fs : FS) (p : Path) : FS × Option PathError :=
  mkdirAllRev fs p.reverse

/-- Model of `os.Create`: the parent must be a directory and the path must not be
one; the file is created, or truncated when it exists. -/
def create (fs : FS) (p : Path) : Except PathError FS :=
  match stat fs p.dropLast with
  | none => .error ⟨"open", p, .ENOENT⟩
  | some (Node.file _) => .error ⟨"open", p, .ENOTDIR⟩
  | some Node.dir =>
    match stat fs p with
    | some Node.dir => .error ⟨"open", p, .EISDIR⟩
    | _ => .ok (fs.set p (Node.file ""))

/-! ## The generator (`generator/generator.go`) -/

/-- The errors `Generate` returns, one per `fmt.Errorf` of the source. -/
inductive GenError where
  | baseDir (cause : PathError)
  | directory (dir : String) (cause : PathError)
  | parseTemplate (filePath : String) (cause : String)
  | createFile (filePath : String) (cause : PathError)
  | writeFile (filePath : String) (cause : String)
  deriving DecidableEq

/-- The message of each error, as formatted in the source. -/
def GenError.message : GenError → String
  | .baseDir e => "failed to create base directory: " ++ e.message
  | .directory dir e => "failed to create directory " ++ dir ++ ": " ++ e.message
  | .parseTemplate f e => "failed to parse template for " ++ f ++ ": " ++ e
  | .createFile f e => "failed to create file " ++ f ++ ": " ++ e.message
  | .writeFile f e => "failed to write file " ++ f ++ ": " ++ e

/-- buildAPIStructure creates structure for REST API projects. -/
def buildAPIStructure : ProjectStructure where
  Directories := [
    "cmd/api",
    "internal/handler",
    "internal/service",
    "internal/repository",
    "internal/model",
    "internal/middleware",
    "internal/config",
    "pkg/response",
    "pkg/validator",
    "migrations",
    "docs",
    "scripts"]
  Files := [
    ("go.mod", goModTemplate),
    ("README.md", readmeTemplate),
    (".gitignore", gitignoreTemplate),
    ("Makefile", makefileAPITemplate),
    ("cmd/api/main.go", mainAPITemplate),
    ("internal/config/config.go", configTemplate),
    ("internal/handler/handler.go", handlerTemplate),
    ("internal/service/service.go", serviceTemplate),
    ("internal/repository/repository.go", repositoryTemplate),
    ("internal/model/model.go", modelTemplate),
    ("internal/middleware/middleware.go", middlewareTemplate),
    ("pkg/response/response.go", responseTemplate),
    ("docs/API.md", apiDocsTemplate)]

/-- buildCLIStructure creates structure for CLI tool projects. -/
def buildCLIStructure : ProjectStructure where
  Directories := [
    "cmd",
    "internal/command",
    "internal/config",
    "pkg/utils",
    "docs"]
  Files := [
    ("go.mod", goModTemplate),
    ("README.md", readmeTemplate),
    (".gitignore", gitignoreTemplate),
    ("Makefile", makefileCLITemplate),
    ("cmd/main.go", mainCLITemplate),
    ("internal/command/root.go", cliRootTemplate),
    ("internal/config/config.go", configTemplate)]

/-- buildMicroserviceStructure creates structure for microservice projects. -/
def buildMicroserviceStructure : ProjectStructure where
  Directories := [
    "cmd/server",
    "internal/handler",
    "internal/service",
    "internal/repository",
    "internal/model",
    "internal/middleware",
    "internal/config",
    "pkg/grpc",
    "pkg/http",
    "proto",
    "migrations",
    "deployments/docker",
    "deployments/k8s",
    "scripts"]
  Files := [
    ("go.mod", goModTemplate),
    ("README.md", readmeTemplate),
    (".gitignore", gitignoreTemplate),
    ("Makefile", makefileMicroTemplate),
    ("Dockerfile", dockerfileTemplate),
    ("cmd/server/main.go", mainMicroTemplate),
    ("internal/config/config.go", configTemplate),
    ("internal/handler/handler.go", handlerTemplate),
    ("internal/service/service.go", serviceTemplate),
    ("internal/repository/repository.go", repositoryTemplate),
    ("internal/model/model.go", modelTemplate),
    ("deployments/k8s/deployment.yaml", k8sDeploymentTemplate),
    ("deployments/k8s/service.yaml", k8sServiceTemplate)]

/-- buildLibraryStructure creates structure for library projects. -/
def buildLibraryStructure : ProjectStructure where
  Directories := [
    "internal",
    "examples",
    "docs"]
  Files := [
    ("go.mod", goModTemplate),
    ("README.md", readmeTemplate),
    (".gitignore", gitignoreTemplate),
    ("Makefile", makefileLibTemplate),
    ("\x7b\x7b.Name\x7d\x7d.go", libraryMainTemplate),
    ("examples/main.go", libraryExampleTemplate),
    ("docs/USAGE.md", usageDocsTemplate)]

/-- buildStructure builds the project structure based on project type. -/
def buildStructure (config : ProjectConfig) : ProjectStructure :=
  if config.ProjType = ProjectTypeAPI then buildAPIStructure
  else if config.ProjType = ProjectTypeCLI then buildCLIStructure
  else if config.ProjType = ProjectTypeMicro then buildMicroserviceStructure
  else if config.ProjType = ProjectTypeLibrary then buildLibraryStructure
  else buildAPIStructure

/-- NewGenerator creates a new Generator instance. -/
def NewGenerator (config : ProjectConfig) : Generator :=
  let config1 := if config.GoVersion = "" then { config with GoVersion := "1.24" } else config
  { config := config1, structure_ := buildStructure config1 }

/-- The loop over `g.structure.Directories`: stops at the first failure. -/
def createDirs (basePath : Path) : List String → FS → FS × Option GenError
  | [], fs => (fs, none)
  | dir :: rest, fs =>
    match mkdirAll fs (join basePath dir) with
    | (fs1, some e) => (fs1, some (.directory dir e))
    | (fs1, none) => createDirs basePath rest fs1

/-- The body of the loop over `g.structure.Files` for one entry: parse the template,
create the file, execute the template into it. -/
def writeFile (config : ProjectConfig) (basePath : Path) (filePath content : String)
    (fs : FS) : FS × Option GenError :=
  match parseTemplate content with
  | .error e => (fs, some (.parseTemplate filePath e))
  | .ok tmpl =>
    match create fs (join basePath filePath) with
    | .error e => (fs, some (.createFile filePath e))
    | .ok fs1 =>
      let out := execute config tmpl
      (fs1.set (join basePath filePath) (Node.file out.1), out.2.map (GenError.writeFile filePath))

/-- The loop over `g.structure.Files`, in the order the map is enumerated. -/
def writeFiles (config : ProjectConfig) (basePath : Path) :
    List (String × String) → FS → FS × Option GenError
  | [], fs => (fs, none)
  | entry :: rest, fs =>
    match writeFile config basePath entry.1 entry.2 fs with
    | (fs1, some e) => (fs1, some e)
    | (fs1, none) => writeFiles config basePath rest fs1

/-- The project root: `filepath.Join(g.config.OutputPath, g.config.Name)`.  The output
path is absolute where Generate is called (`executeGenerate` passes the result of
`filepath.Abs`), so the path is read from the root. -/
def basePathOf (config : ProjectConfig) : Path :=
  join (join [] config.OutputPath) config.Name

/-- Generate creates the project structure on disk.  `order` is the order in which
the `range` over the file map enumerates its entries; the result is the filesystem
left behind and the error returned, if any. -/
def Generate (g : Generator) (order : List (String × String)) (fs : FS) :
    FS × Option GenError :=
  match mkdirAll fs (basePathOf g.config) with
  | (fs1, some e) => (fs1, some (.baseDir e))
  | (fs1, none) =>
    match createDirs (basePathOf g.config) g.structure_.Directories fs1 with
    | (fs2, some e) => (fs2, some e)
    | (fs2, none) => writeFiles g.config (basePathOf g.config) order fs2

/-! ## The command (`cmd/generate.go`) -/

/-- The switch on the `-type` flag in `executeGenerate`. -/
def canonicalType (projectType : String) : Except String ProjectType :=
  if projectType = "api" then .ok ProjectTypeAPI
  else if projectType = "cli" then .ok ProjectTypeCLI
  else if projectType = "microservice" ∨ projectType = "micro" then .ok ProjectTypeMicro
  else if projectType = "library" ∨ projectType = "lib" then .ok ProjectTypeLibrary
  else .error ("invalid project type \x27" ++ projectType ++
    "\x27. Must be one of: api, cli, microservice, library")

/-- The values of the flags of the `gen` command. -/
structure GenFlags where
  name : String
  module : String
  projectType : String
  description : String
  author : String
  goVersion : String
  outputPath : String

/-- The part of `executeGenerate` from the validation of the flags to the call of
`NewGenerator`.  `abs` stands for `filepath.Abs`. -/
def prepareGenerator (abs : String → Except String String) (f : GenFlags) :
    Except String Generator :=
  if f.name = "" then .error "-name is required\n\nRun \x27go-projo gen -help\x27 for usage"
  else if f.module = "" then
    .error "-module is required\n\nRun \x27go-projo gen -help\x27 for usage"
  else
    match canonicalType f.projectType with
    | .error e => .error e
    | .ok pType =>
      match abs f.outputPath with
      | .error e => .error ("invalid output path: " ++ e)
      | .ok absOutputPath =>
        .ok (NewGenerator {
          Name := f.name
          Module := f.module
          ProjType := pType
          Description := f.description
          Author := f.author
          GoVersion := f.goVersion
          OutputPath := absOutputPath })

/-- The six spellings the `-type` flag accepts. -/
def acceptedTypes : List String :=
  ["api", "cli", "microservice", "micro", "library", "lib"]

/-! ## Concrete inputs -/

/-- The empty disk: only the root exists. -/
def emptyFS : FS := fun _ => none

/-- A disk with the directories `/tmp` and `/tmp/work`. -/
def workFS : FS :=
  (emptyFS.set ["tmp"] Node.dir).set ["tmp", "work"] Node.dir

/-- A disk where a regular file occupies `/tmp/work/orders`. -/
def occupiedFS : FS :=
  workFS.set ["tmp", "work", "orders"] (Node.file "not a directory\n")

/-- The configuration of the end-to-end scenario. -/
def ordersConfig : ProjectConfig where
  Name := "orders"
  Module := "example.com/orders"
  ProjType := ProjectTypeCLI
  Description := ""
  Author := ""
  GoVersion := ""
  OutputPath := "/tmp/work"

/-- A library configuration. -/
def mylibConfig : ProjectConfig where
  Name := "mylib"
  Module := "example.com/mylib"
  ProjType := ProjectTypeLibrary
  Description := "A small library"
  Author := "A. Author"
  GoVersion := "1.24"
  OutputPath := "/tmp/work"

/-- A microservice configuration. -/
def svcConfig : ProjectConfig where
  Name := "svc"
  Module := "example.com/svc"
  ProjType := ProjectTypeMicro
  Description := ""
  Author := ""
  GoVersion := "1.24"
  OutputPath := "/tmp/work"

/-- The path holds a regular file. -/
def isFile : Option Node → Bool
  | some (Node.file _) => true
  | _ => false

/-- The path holds a directory. -/
def isDir : Option Node → Bool
  | some Node.dir => true
  | _ => false

/-- A disk where the project root of the scenario exists and holds a file that is
not part of any catalog. -/
def notesFS : FS :=
  (workFS.set ["tmp", "work", "orders"] Node.dir).set ["tmp", "work", "orders", "notes.txt"]
    (Node.file "keep me\n")

/-- The check that a parsed template starts with the text `# ` followed by the
field `Name`. -/
def startsWithTitle : Except String (List TNode) → Bool
  | .ok (TNode.text s :: TNode.field f :: _) => s == "# " && f == "Name"
  | _ => false

/-- A cli configuration whose description is the text of an opening delimiter. -/
def braceConfig : ProjectConfig where
  Name := "orders"
  Module := "example.com/orders"
  ProjType := ProjectTypeCLI
  Description := "\x7b\x7b"
  Author := ""
  GoVersion := "1.24"
  OutputPath := "/tmp/work"

/-! ## Predicates used in the statements -/

/-- Nothing that exists is removed or changes kind; directories stay directories and
files stay files (their content may change). -/
def Preserves (fs fs1 : FS) : Prop :=
  (∀ q, stat fs q = some Node.dir → stat fs1 q = some Node.dir) ∧
  (∀ q c, stat fs q = some (Node.file c) → ∃ c1, stat fs1 q = some (Node.file c1))

/-- Every path holds what it held, except paths where a directory appeared. -/
def OnlyAddsDirs (fs fs1 : FS) : Prop :=
  ∀ q, stat fs1 q = stat fs q ∨ (stat fs q = none ∧ stat fs1 q = some Node.dir)

/-- A component that `filepath.Clean` keeps as it is. -/
def plainComponent (c : String) : Bool :=
  c != "" && c != "." && c != ".."

/-- A relative path string whose components are all kept by `filepath.Clean`. -/
def plainPath (s : String) : Bool :=
  (components s).all plainComponent

/-- Two equal adjacent characters `c` occur in the list: with `c` a brace this is
an occurrence of a template delimiter. -/
def hasPair (c : Char) : List Char → Bool
  | [] => false
  | [_] => false
  | a :: b :: rest => (a == c && b == c) || hasPair c (b :: rest)

/-- The string `pat` occurs in `s`. -/
def Occurs (pat s : String) : Prop :=
  pat.data <:+: s.data

/-- The file paths of a structure are kept as written by `filepath.Join` and no two
of them name the same file. -/
def keysOK (s : ProjectStructure) : Bool :=
  s.Files.all (fun e => plainPath e.1) && decide (s.Files.map (fun e => components e.1)).Nodup

/-- What `Generate` has established for one entry of the file map when it returns
no error: the template parsed and executed, and the file holds its output. -/
def Written (config : ProjectConfig) (basePath : Path) (fs : FS) (e : String × String) : Prop :=
  ∃ tmpl, parseTemplate e.2 = .ok tmpl ∧ (execute config tmpl).2 = none ∧
    stat fs (join basePath e.1) = some (Node.file (execute config tmpl).1) ∧
    stat fs (join basePath e.1).dropLast = some Node.dir ∧
    join basePath e.1 ≠ []

/-- The list starts with the character `c`. -/
def headIs (c : Char) (l : List Char) : Bool :=
  l.head? == some c

/-- The list ends with the character `c`. -/
def lastIs (c : Char) (l : List Char) : Bool :=
  l.getLast? == some c

/-- The fields the templates of the catalog refer to. -/
def allowedFields : List String :=
  ["Name", "Module", "Description", "Author", "GoVersion"]

/-- A text node that cannot contribute to a delimiter in the output: it is not
empty, holds no `{{` and no `}}`, and neither starts nor ends with a brace. -/
def okText (s : String) : Bool :=
  !s.data.isEmpty && !hasPair '{' s.data && !hasPair '}' s.data &&
  !headIs '{' s.data && !headIs '}' s.data && !lastIs '{' s.data && !lastIs '}' s.data

/-- The node list starts with a field. -/
def startsWithField : List TNode → Bool
  | TNode.field _ :: _ => true
  | _ => false

/-- Every text node is `okText`, every field is one of `allowedFields`, and no two
fields are adjacent. -/
def sepOK : List TNode → Bool
  | [] => true
  | TNode.text s :: rest => okText s && sepOK rest
  | TNode.field f :: rest => decide (f ∈ allowedFields) && !startsWithField rest && sepOK rest

/-- The body parses and its nodes are `sepOK`. -/
def templateOK (body : String) : Bool :=
  match parseTemplate body with
  | .ok ns => sepOK ns
  | .error _ => false

/-- Every template body of the structure is `templateOK`. -/
def templatesOK (s : ProjectStructure) : Bool :=
  s.Files.all (fun e => templateOK e.2)

/-- The directory paths of a structure are kept as written by `filepath.Join`. -/
def dirsOK (s : ProjectStructure) : Bool :=
  s.Directories.all plainPath

/-- The path holds a file in whose content two adjacent `c` occur. -/
def fileHasPair (c : Char) : Option Node → Bool
  | some (Node.file s) => hasPair c s.data
  | _ => false

/-- Every template body of `generator/templates.go`. -/
def allTemplates : List String :=
  [goModTemplate, readmeTemplate, gitignoreTemplate, makefileAPITemplate,
   makefileCLITemplate, makefileMicroTemplate, makefileLibTemplate, mainAPITemplate,
   mainCLITemplate, mainMicroTemplate, configTemplate, handlerTemplate,
   serviceTemplate, repositoryTemplate, modelTemplate, middlewareTemplate,
   responseTemplate, cliRootTemplate, apiDocsTemplate, dockerfileTemplate,
   k8sDeploymentTemplate, k8sServiceTemplate, libraryMainTemplate, libraryExampleTemplate,
   usageDocsTemplate]

/-- The relative paths Generate makes for a structure: every directory of the list
together with the ancestors `MkdirAll` makes on the way, and every file of the map. -/
def createdPaths (s : ProjectStructure) : List Path :=
  s.Directories.flatMap (fun d => (components d).inits.filter (fun p => p ≠ [])) ++
    s.Files.map (fun e => components e.1)

/-- The relative paths written in the catalog of a structure: the entries of the
directory list and the keys of the file map. -/
def catalogPaths (s : ProjectStructure) : List Path :=
  s.Directories.map components ++ s.Files.map (fun e => components e.1)

/-- The path belongs to the catalog of `a` and not to the catalog of `b`. -/
def exclusiveTo (a b : ProjectStructure) (p : Path) : Bool :=
  decide (p ∈ catalogPaths a) && !decide (p ∈ catalogPaths b)

/-! ## A file map with a body that does not parse -/

/-- A generator whose file map has, between two good entries, an entry with an
unclosed action.  No entry of the catalog is like this. -/
def brokenGenerator : Generator where
  config := ordersConfig
  structure_ := {
    Directories := ["docs"]
    Files := [
      ("a.txt", "hello \x7b\x7b.Name\x7d\x7d\n"),
      ("bad.txt", "package \x7b\x7b.Name\n"),
      ("c.txt", "never written\n")] }

/-! ## The sequence of filesystem calls of a run -/

/-- A call Generate makes on the filesystem: `os.MkdirAll`, `os.Create`, or the
write of `tmpl.Execute` into the created file. -/
inductive FsOp where
  | mkdirAll (path : Path)
  | create (path : Path)
  | write (path : Path)
  deriving DecidableEq

/-- The call creates or writes a file. -/
def FsOp.isFileOp : FsOp → Bool
  | .mkdirAll _ => false
  | .create _ => true
  | .write _ => true

/-- The directory loop of Generate, with the calls it makes in order. -/
def createDirsTraced (basePath : Path) :
    List String → FS → (FS × Option GenError) × List FsOp
  | [], fs => ((fs, none), [])
  | dir :: rest, fs =>
    match mkdirAll fs (join basePath dir) with
    | (fs1, some e) => ((fs1, some (.directory dir e)), [.mkdirAll (join basePath dir)])
    | (fs1, none) =>
      ((createDirsTraced basePath rest fs1).1,
        .mkdirAll (join basePath dir) :: (createDirsTraced basePath rest fs1).2)

/-- The body of the file loop for one entry, with the calls it makes in order. -/
def writeFileTraced (config : ProjectConfig) (basePath : Path) (filePath content : String)
    (fs : FS) : (FS × Option GenError) × List FsOp :=
  match parseTemplate content with
  | .error e => ((fs, some (.parseTemplate filePath e)), [])
  | .ok tmpl =>
    match create fs (join basePath filePath) with
    | .error e => ((fs, some (.createFile filePath e)), [.create (join basePath filePath)])
    | .ok fs1 =>
      let out := execute config tmpl
      ((fs1.set (join basePath filePath) (Node.file out.1),
          out.2.map (GenError.writeFile filePath)),
        [.create (join basePath filePath), .write (join basePath filePath)])

/-- The file loop of Generate, with the calls it makes in order. -/
def writeFilesTraced (config : ProjectConfig) (basePath : Path) :
    List (String × String) → FS → (FS × Option GenError) × List FsOp
  | [], fs => ((fs, none), [])
  | entry :: rest, fs =>
    match writeFileTraced config basePath entry.1 entry.2 fs with
    | ((fs1, some e), ops) => ((fs1, some e), ops)
    | ((fs1, none), ops) =>
      ((writeFilesTraced config basePath rest fs1).1,
        ops ++ (writeFilesTraced config basePath rest fs1).2)

/-- Generate, with the filesystem calls it makes in order. -/
def GenerateTraced (g : Generator) (order : List (String × String)) (fs : FS) :
    (FS × Option GenError) × List FsOp :=
  match mkdirAll fs (basePathOf g.config) with
  | (fs1, some e) => ((fs1, some (.baseDir e)), [.mkdirAll (basePathOf g.config)])
  | (fs1, none) =>
    match createDirsTraced (basePathOf g.config) g.structure_.Directories fs1 with
    | ((fs2, some e), ops) => ((fs2, some e), .mkdirAll (basePathOf g.config) :: ops)
    | ((fs2, none), ops) =>
      ((writeFilesTraced g.config (basePathOf g.config) order fs2).1,
        .mkdirAll (basePathOf g.config) :: ops ++
          (writeFilesTraced g.config (basePathOf g.config) order fs2).2)

/-- The directory calls of a complete run: the project root, then every entry of the
directory list. -/
def dirOps (g : Generator) : List FsOp :=
  .mkdirAll (basePathOf g.config) ::
    g.structure_.Directories.map (fun d => FsOp.mkdirAll (join (basePathOf g.config) d))

/-- The error comes from the creation of the project root or of a listed directory. -/
def GenError.isDirError : GenError → Bool
  | .baseDir _ => true
  | .directory _ _ => true
  | _ => false

/-- A disk where a regular file occupies `/tmp/work/orders/internal`. -/
def blockedFS : FS :=
  (workFS.set ["tmp", "work", "orders"] Node.dir).set ["tmp", "work", "orders", "internal"]
    (Node.file "in the way\n")

/-! ## Well-formedness of a catalog -/

/-- The parent directory of every file path is the project root or an entry of the
directory list of the same structure. -/
def parentsOK (s : ProjectStructure) : Bool :=
  s.Files.all (fun e =>
    decide ((components e.1).dropLast = []) ||
    decide ((components e.1).dropLast ∈ s.Directories.map components))

/-- The disk lets the loop body for the entry succeed: the template parses and
executes, the parent of the destination is a directory and the destination is not. -/
def Ready (config : ProjectConfig) (basePath : Path) (fs : FS) (e : String × String) : Prop :=
  ∃ tmpl, parseTemplate e.2 = .ok tmpl ∧ (execute config tmpl).2 = none ∧
    stat fs (join basePath e.1).dropLast = some Node.dir ∧
    stat fs (join basePath e.1) ≠ some Node.dir

/-! ## Generate over any template engine

`text/template` is a library, not part of the repository.  Here the two calls
Generate makes into it are a parameter, so that a statement holds for whatever the
library does with a body. -/

/-- What Generate uses of `text/template`.  `engine name content` stands for
`template.New(name).Parse(content)`: the parse error, or the parsed template, which
is given as what `tmpl.Execute(file, config)` does with it (the text written to the
file and the error, if any). -/
abbrev TemplateEngine :=
  String → String → Except String (ProjectConfig → String × Option String)

/-- The engine made of `parseTemplate` and `execute`. -/
def modelEngine : TemplateEngine := fun _ content =>
  match parseTemplate content with
  | .error e => .error e
  | .ok tmpl => .ok (fun config => execute config tmpl)

/-- The body of the loop over `g.structure.Files` for one entry, over any engine. -/
def writeFileWith (engine : TemplateEngine) (config : ProjectConfig) (basePath : Path)
    (filePath content : String) (fs : FS) : FS × Option GenError :=
  match engine filePath content with
  | .error e => (fs, some (.parseTemplate filePath e))
  | .ok tmpl =>
    match create fs (join basePath filePath) with
    | .error e => (fs, some (.createFile filePath e))
    | .ok fs1 =>
      let out := tmpl config
      (fs1.set (join basePath filePath) (Node.file out.1), out.2.map (GenError.writeFile filePath))

/-- The loop over `g.structure.Files`, over any engine. -/
def writeFilesWith (engine : TemplateEngine) (config : ProjectConfig) (basePath : Path) :
    List (String × String) → FS → FS × Option GenError
  | [], fs => (fs, none)
  | entry :: rest, fs =>
    match writeFileWith engine config basePath entry.1 entry.2 fs with
    | (fs1, some e) => (fs1, some e)
    | (fs1, none) => writeFilesWith engine config basePath rest fs1

/-- Generate over any engine: the same three phases, with the parse and the
execution of each template left to the engine. -/
def GenerateWith (engine : TemplateEngine) (g : Generator) (order : List (String × String))
    (fs : FS) : FS × Option GenError :=
  match mkdirAll fs (basePathOf g.config) with
  | (fs1, some e) => (fs1, some (.baseDir e))
  | (fs1, none) =>
    match createDirs (basePathOf g.config) g.structure_.Directories fs1 with
    | (fs2, some e) => (fs2, some e)
    | (fs2, none) => writeFilesWith engine g.config (basePathOf g.config) order fs2

/-! ## Facts about the filesystem model -/

theorem stat_nil (fs : FS) : stat fs [] = some Node.dir := by
  simp [stat]

theorem stat_set_ne (fs : FS) (p q : Path) (n : Node) (h : q ≠ p) :
    stat (fs.set p n) q = stat fs q := by
  simp [stat, FS.set, h]

theorem stat_set_self (fs : FS) (p : Path) (n : Node) (h : p ≠ []) :
    stat (fs.set p n) p = some n := by
  simp [stat, FS.set, h]

theorem set_set (fs : FS) (p : Path) (a b : Node) : (fs.set p a).set p b = fs.set p b := by
  funext q
  by_cases h : q = p <;> simp [FS.set, h]

theorem set_of_stat (fs : FS) (p : Path) (n : Node) (hp : p ≠ []) (h : stat fs p = some n) :
    fs.set p n = fs := by
  funext q
  by_cases hq : q = p
  · subst hq
    simp [stat, hp] at h
    simp [FS.set, h]
  · simp [FS.set, hq]

theorem Preserves.presRefl (fs : FS) : Preserves fs fs :=
  ⟨fun _ h => h, fun _ c h => ⟨c, h⟩⟩

theorem Preserves.presTrans {a b c : FS} (h1 : Preserves a b) (h2 : Preserves b c) :
    Preserves a c := by
  refine ⟨fun q h => h2.1 q (h1.1 q h), fun q x h => ?_⟩
  obtain ⟨y, hy⟩ := h1.2 q x h
  exact h2.2 q y hy

theorem OnlyAddsDirs.addsRefl (fs : FS) : OnlyAddsDirs fs fs :=
  fun _ => Or.inl rfl

theorem OnlyAddsDirs.addsTrans {a b c : FS} (h1 : OnlyAddsDirs a b) (h2 : OnlyAddsDirs b c) :
    OnlyAddsDirs a c := by
  intro q
  rcases h1 q with h | ⟨h, h'⟩
  · rcases h2 q with g | ⟨g, g'⟩
    · exact Or.inl (g.trans h)
    · exact Or.inr ⟨h ▸ g, g'⟩
  · rcases h2 q with g | ⟨g, _⟩
    · exact Or.inr ⟨h, g.trans h'⟩
    · rw [h'] at g; cases g

theorem OnlyAddsDirs.keeps {a b : FS} (h : OnlyAddsDirs a b) (q : Path) (n : Node)
    (hq : stat a q = some n) : stat b q = some n := by
  rcases h q with g | ⟨g, _⟩
  · rw [g, hq]
  · rw [hq] at g; cases g

theorem OnlyAddsDirs.preserves {a b : FS} (h : OnlyAddsDirs a b) : Preserves a b :=
  ⟨fun q hq => h.keeps q _ hq, fun q c hq => ⟨c, h.keeps q _ hq⟩⟩

theorem mkdir_ok {fs fs1 : FS} {p : Path} (h : mkdir fs p = .ok fs1) :
    stat fs p = none ∧ fs1 = fs.set p Node.dir := by
  unfold mkdir at h
  split at h
  · cases h
  · cases h
  · split at h
    · rename_i h2
      cases h
      exact ⟨h2, rfl⟩
    · cases h

theorem mkdir_onlyAddsDirs {fs fs1 : FS} {p : Path} (h : mkdir fs p = .ok fs1) :
    OnlyAddsDirs fs fs1 ∧ stat fs1 p = some Node.dir := by
  obtain ⟨h1, h2⟩ := mkdir_ok h
  have hp : p ≠ [] := by
    rintro rfl
    simp [stat] at h1
  subst h2
  refine ⟨fun q => ?_, stat_set_self fs p _ hp⟩
  by_cases hq : q = p
  · subst hq
    exact Or.inr ⟨h1, stat_set_self fs q _ hp⟩
  · exact Or.inl (stat_set_ne fs p q _ hq)

theorem mkdirAllRev_spec (rp : List String) (fs : FS) :
    OnlyAddsDirs fs (mkdirAllRev fs rp).1 ∧
    ((mkdirAllRev fs rp).2 = none → stat (mkdirAllRev fs rp).1 rp.reverse = some Node.dir) := by
  induction rp with
  | nil => exact ⟨OnlyAddsDirs.addsRefl fs, fun _ => stat_nil fs⟩
  | cons c parent ih =>
    unfold mkdirAllRev
    split
    · rename_i h
      exact ⟨OnlyAddsDirs.addsRefl fs, fun _ => h⟩
    · exact ⟨OnlyAddsDirs.addsRefl fs, fun h => by cases h⟩
    · split
      · rename_i fs1 e he
        rw [he] at ih
        exact ⟨ih.1, fun h => by cases h⟩
      · rename_i fs1 he
        rw [he] at ih
        split
        · rename_i fs2 hm
          have := mkdir_onlyAddsDirs hm
          exact ⟨ih.1.addsTrans this.1, fun _ => this.2⟩
        · exact ⟨ih.1, fun h => by cases h⟩

theorem mkdirAll_onlyAddsDirs (fs : FS) (p : Path) : OnlyAddsDirs fs (mkdirAll fs p).1 :=
  (mkdirAllRev_spec p.reverse fs).1

theorem mkdirAll_dir (fs : FS) (p : Path) (h : (mkdirAll fs p).2 = none) :
    stat (mkdirAll fs p).1 p = some Node.dir := by
  have := (mkdirAllRev_spec p.reverse fs).2 h
  rwa [List.reverse_reverse] at this

theorem mkdirAll_of_dir (fs : FS) (p : Path) (h : stat fs p = some Node.dir) :
    mkdirAll fs p = (fs, none) := by
  unfold mkdirAll
  cases hr : p.reverse with
  | nil => rfl
  | cons c parent =>
    have hp : (c :: parent).reverse = p := by rw [← hr, List.reverse_reverse]
    unfold mkdirAllRev
    rw [hp, h]

theorem mkdirAll_of_file (fs : FS) (p : Path) (c : String)
    (h : stat fs p = some (Node.file c)) :
    mkdirAll fs p = (fs, some ⟨"mkdir", p, .ENOTDIR⟩) := by
  unfold mkdirAll
  cases hr : p.reverse with
  | nil =>
    have : p = [] := by simpa using hr
    subst this
    simp [stat] at h
  | cons d parent =>
    have hp : (d :: parent).reverse = p := by rw [← hr, List.reverse_reverse]
    unfold mkdirAllRev
    rw [hp, h]

/-! ## Facts about paths -/

theorem foldl_joinStep_plain (cs : List String) (p : Path)
    (h : cs.all plainComponent = true) : cs.foldl joinStep p = p ++ cs := by
  induction cs generalizing p with
  | nil => simp
  | cons c rest ih =>
    simp only [List.all_cons, Bool.and_eq_true] at h
    have hc : joinStep p c = p ++ [c] := by
      have := h.1
      simp only [plainComponent, Bool.and_eq_true, bne_iff_ne, ne_eq] at this
      simp [joinStep, this.1.1, this.1.2, this.2]
    rw [List.foldl_cons, hc, ih _ h.2]
    simp

theorem join_plain (p : Path) (s : String) (h : plainPath s = true) :
    join p s = p ++ components s :=
  foldl_joinStep_plain _ p h

theorem splitSlash_ne_nil (cs cur : List Char) : splitSlash cs cur ≠ [] := by
  induction cs generalizing cur with
  | nil => simp [splitSlash]
  | cons c rest ih =>
    unfold splitSlash
    split
    · simp
    · exact ih _

theorem components_ne_nil (s : String) : components s ≠ [] :=
  splitSlash_ne_nil _ _

theorem join_plain_ne_nil (p : Path) (s : String) (h : plainPath s = true) :
    join p s ≠ [] := by
  rw [join_plain p s h]
  simp [components_ne_nil]

/-! ## Facts about the loops of Generate -/

theorem createDirs_spec (basePath : Path) (dirs : List String) (fs : FS) :
    OnlyAddsDirs fs (createDirs basePath dirs fs).1 ∧
    ((createDirs basePath dirs fs).2 = none →
      ∀ d ∈ dirs, stat (createDirs basePath dirs fs).1 (join basePath d) = some Node.dir) := by
  induction dirs generalizing fs with
  | nil => exact ⟨OnlyAddsDirs.addsRefl fs, fun _ d hd => by cases hd⟩
  | cons dir rest ih =>
    have h1 := mkdirAll_onlyAddsDirs fs (join basePath dir)
    have h2 := mkdirAll_dir fs (join basePath dir)
    unfold createDirs
    split
    · rename_i fs1 e he
      rw [he] at h1
      exact ⟨h1, fun h => by cases h⟩
    · rename_i fs1 he
      rw [he] at h1 h2
      obtain ⟨ih1, ih2⟩ := ih fs1
      refine ⟨h1.addsTrans ih1, fun hok d hd => ?_⟩
      rcases List.mem_cons.1 hd with rfl | hd
      · exact ih1.keeps _ _ (h2 rfl)
      · exact ih2 hok d hd

theorem createDirs_of_dirs (basePath : Path) (dirs : List String) (fs : FS)
    (h : ∀ d ∈ dirs, stat fs (join basePath d) = some Node.dir) :
    createDirs basePath dirs fs = (fs, none) := by
  induction dirs with
  | nil => rfl
  | cons dir rest ih =>
    unfold createDirs
    rw [mkdirAll_of_dir fs _ (h dir (List.mem_cons_self _ _))]
    exact ih (fun d hd => h d (List.mem_cons_of_mem _ hd))

theorem create_ok {fs fs1 : FS} {p : Path} (h : create fs p = .ok fs1) :
    fs1 = fs.set p (Node.file "") ∧ stat fs p.dropLast = some Node.dir ∧
    stat fs p ≠ some Node.dir ∧ p ≠ [] := by
  unfold create at h
  split at h
  · cases h
  · cases h
  · rename_i hpar
    split at h
    · cases h
    · rename_i hne
      cases h
      refine ⟨rfl, hpar, fun hd => hne hd, ?_⟩
      rintro rfl
      exact hne (stat_nil fs)

/-- What one pass of the file loop does to the disk. -/
theorem writeFile_spec (config : ProjectConfig) (basePath : Path) (filePath content : String)
    (fs : FS) :
    (∀ q, q ≠ join basePath filePath →
      stat (writeFile config basePath filePath content fs).1 q = stat fs q) ∧
    Preserves fs (writeFile config basePath filePath content fs).1 ∧
    ((writeFile config basePath filePath content fs).2 = none →
      ∃ tmpl, parseTemplate content = .ok tmpl ∧ (execute config tmpl).2 = none ∧
        stat (writeFile config basePath filePath content fs).1 (join basePath filePath) =
          some (Node.file (execute config tmpl).1) ∧
        stat fs (join basePath filePath).dropLast = some Node.dir ∧
        join basePath filePath ≠ []) := by
  unfold writeFile
  split
  · exact ⟨fun _ _ => rfl, Preserves.presRefl fs, fun h => by cases h⟩
  · rename_i tmpl hparse
    split
    · exact ⟨fun _ _ => rfl, Preserves.presRefl fs, fun h => by cases h⟩
    · rename_i fs1 hcreate
      obtain ⟨rfl, hpar, hnd, hne⟩ := create_ok hcreate
      simp only [set_set]
      have hframe : ∀ q, q ≠ join basePath filePath →
          stat (fs.set (join basePath filePath) (Node.file (execute config tmpl).1)) q =
            stat fs q := fun q hq => stat_set_ne fs _ q _ hq
      have hself := stat_set_self fs (join basePath filePath)
        (Node.file (execute config tmpl).1) hne
      refine ⟨hframe, ⟨fun q hq => ?_, fun q c hq => ?_⟩, fun hok => ?_⟩
      · by_cases h : q = join basePath filePath
        · subst h; exact absurd hq hnd
        · rw [hframe q h]; exact hq
      · by_cases h : q = join basePath filePath
        · subst h; exact ⟨_, hself⟩
        · rw [hframe q h]; exact ⟨c, hq⟩
      · refine ⟨tmpl, hparse, ?_, hself, hpar, hne⟩
        cases hx : (execute config tmpl).2 with
        | none => rfl
        | some e => rw [hx] at hok; cases hok

theorem writeFiles_spec (config : ProjectConfig) (basePath : Path)
    (entries : List (String × String)) (fs : FS) :
    (∀ q, (∀ e ∈ entries, q ≠ join basePath e.1) →
      stat (writeFiles config basePath entries fs).1 q = stat fs q) ∧
    Preserves fs (writeFiles config basePath entries fs).1 ∧
    ((writeFiles config basePath entries fs).2 = none →
      (entries.map (fun e => join basePath e.1)).Nodup →
      ∀ e ∈ entries, Written config basePath (writeFiles config basePath entries fs).1 e) := by
  induction entries generalizing fs with
  | nil => exact ⟨fun _ _ => rfl, Preserves.presRefl fs, fun _ _ e he => by cases he⟩
  | cons e rest ih =>
    obtain ⟨hf, hp, hs⟩ := writeFile_spec config basePath e.1 e.2 fs
    unfold writeFiles
    split
    · rename_i fs1 err he
      rw [he] at hf hp
      exact ⟨fun q hq => hf q (hq e (List.mem_cons_self _ _)), hp, fun h => by cases h⟩
    · rename_i fs1 he
      rw [he] at hf hp hs
      obtain ⟨ihf, ihp, ihs⟩ := ih fs1
      refine ⟨fun q hq => ?_, hp.presTrans ihp, fun hok hnd x hx => ?_⟩
      · rw [ihf q (fun x hx => hq x (List.mem_cons_of_mem _ hx))]
        exact hf q (hq e (List.mem_cons_self _ _))
      · rw [List.map_cons, List.nodup_cons] at hnd
        rcases List.mem_cons.1 hx with rfl | hx
        · obtain ⟨tmpl, h1, h2, h3, h4, h5⟩ := hs rfl
          refine ⟨tmpl, h1, h2, ?_, ihp.1 _ (hp.1 _ h4), h5⟩
          rw [ihf _ (fun y hy heq => hnd.1 (List.mem_map.2 ⟨y, hy, heq.symm⟩))]
          exact h3
        · exact ihs hok hnd.2 x hx

theorem writeFile_fixed (config : ProjectConfig) (basePath : Path) (fs : FS)
    (e : String × String) (h : Written config basePath fs e) :
    writeFile config basePath e.1 e.2 fs = (fs, none) := by
  obtain ⟨tmpl, h1, h2, h3, h4, h5⟩ := h
  have hc : create fs (join basePath e.1) = .ok (fs.set (join basePath e.1) (Node.file "")) := by
    unfold create
    rw [h4]
    simp only [h3]
  unfold writeFile
  rw [h1]
  simp only [hc, set_set, h2, Option.map_none']
  rw [set_of_stat fs _ _ h5 h3]

theorem writeFiles_fixed (config : ProjectConfig) (basePath : Path)
    (entries : List (String × String)) (fs : FS)
    (h : ∀ e ∈ entries, Written config basePath fs e) :
    writeFiles config basePath entries fs = (fs, none) := by
  induction entries with
  | nil => rfl
  | cons e rest ih =>
    unfold writeFiles
    rw [writeFile_fixed config basePath fs e (h e (List.mem_cons_self _ _))]
    exact ih (fun x hx => h x (List.mem_cons_of_mem _ hx))

/-! ## Facts about the catalog -/

theorem keysOK_api : keysOK buildAPIStructure = true := by decide!
theorem keysOK_cli : keysOK buildCLIStructure = true := by decide!
theorem keysOK_micro : keysOK buildMicroserviceStructure = true := by decide!
theorem keysOK_library : keysOK buildLibraryStructure = true := by decide!

/-- The structure built is always one of the four of the catalog. -/
theorem buildStructure_cases (config : ProjectConfig) :
    buildStructure config = buildAPIStructure ∨ buildStructure config = buildCLIStructure ∨
    buildStructure config = buildMicroserviceStructure ∨
    buildStructure config = buildLibraryStructure := by
  unfold buildStructure
  split
  · exact Or.inl rfl
  · split
    · exact Or.inr (Or.inl rfl)
    · split
      · exact Or.inr (Or.inr (Or.inl rfl))
      · split
        · exact Or.inr (Or.inr (Or.inr rfl))
        · exact Or.inl rfl

theorem keysOK_buildStructure (config : ProjectConfig) : keysOK (buildStructure config) = true := by
  rcases buildStructure_cases config with h | h | h | h <;> rw [h]
  · exact keysOK_api
  · exact keysOK_cli
  · exact keysOK_micro
  · exact keysOK_library

theorem keysOK_plain {s : ProjectStructure} (h : keysOK s = true) (e : String × String)
    (he : e ∈ s.Files) : plainPath e.1 = true := by
  simp only [keysOK, Bool.and_eq_true, List.all_eq_true] at h
  exact h.1 e he

/-- Under any project root, an enumeration of the file map names each file once. -/
theorem keysOK_nodup {s : ProjectStructure} (h : keysOK s = true) (basePath : Path)
    (order : List (String × String)) (hperm : order.Perm s.Files) :
    (order.map (fun e => join basePath e.1)).Nodup := by
  have hplain := keysOK_plain h
  simp only [keysOK, Bool.and_eq_true, decide_eq_true_eq] at h
  have h2 : (s.Files.map (fun e => join basePath e.1)).Nodup := by
    have : s.Files.map (fun e => join basePath e.1) =
        (s.Files.map (fun e => components e.1)).map (fun c => basePath ++ c) := by
      rw [List.map_map]
      apply List.map_congr_left
      intro e he
      exact join_plain basePath e.1 (hplain e he)
    rw [this]
    exact h.2.map (fun a b hab => List.append_cancel_left hab)
  exact (hperm.map _).nodup_iff.2 h2

/-! ## Facts about Generate -/

/-- The three phases of Generate, named: the state and error after the base
directory, after the directory loop, and at the end. -/
theorem Generate_phases (g : Generator) (order : List (String × String)) (fs : FS) :
    (∃ e, (mkdirAll fs (basePathOf g.config)).2 = some e ∧
      Generate g order fs = ((mkdirAll fs (basePathOf g.config)).1, some (.baseDir e))) ∨
    ((mkdirAll fs (basePathOf g.config)).2 = none ∧
      ∃ e, (createDirs (basePathOf g.config) g.structure_.Directories
          (mkdirAll fs (basePathOf g.config)).1).2 = some e ∧
        Generate g order fs = ((createDirs (basePathOf g.config) g.structure_.Directories
          (mkdirAll fs (basePathOf g.config)).1).1, some e)) ∨
    ((mkdirAll fs (basePathOf g.config)).2 = none ∧
      (createDirs (basePathOf g.config) g.structure_.Directories
          (mkdirAll fs (basePathOf g.config)).1).2 = none ∧
      Generate g order fs = writeFiles g.config (basePathOf g.config) order
        (createDirs (basePathOf g.config) g.structure_.Directories
          (mkdirAll fs (basePathOf g.config)).1).1) := by
  unfold Generate
  rcases h1 : mkdirAll fs (basePathOf g.config) with ⟨fs1, _ | e1⟩
  · dsimp only
    rcases h2 : createDirs (basePathOf g.config) g.structure_.Directories fs1 with ⟨fs2, _ | e2⟩
    · exact Or.inr (Or.inr ⟨rfl, rfl, rfl⟩)
    · exact Or.inr (Or.inl ⟨rfl, e2, rfl, rfl⟩)
  · exact Or.inl ⟨e1, rfl, rfl⟩

theorem Generate_preserves (g : Generator) (order : List (String × String)) (fs : FS) :
    Preserves fs (Generate g order fs).1 := by
  have h1 := (mkdirAll_onlyAddsDirs fs (basePathOf g.config)).preserves
  have h2 := (createDirs_spec (basePathOf g.config) g.structure_.Directories
    (mkdirAll fs (basePathOf g.config)).1).1.preserves
  rcases Generate_phases g order fs with ⟨e, _, h⟩ | ⟨_, e, _, h⟩ | ⟨_, _, h⟩ <;> rw [h]
  · exact h1
  · exact h1.presTrans h2
  · exact (h1.presTrans h2).presTrans (writeFiles_spec _ _ _ _).2.1

theorem Generate_frame (g : Generator) (order : List (String × String)) (fs : FS) (q : Path)
    (c : String) (hq : ∀ e ∈ order, q ≠ join (basePathOf g.config) e.1)
    (h : stat fs q = some (Node.file c)) :
    stat (Generate g order fs).1 q = some (Node.file c) := by
  have h1 := (mkdirAll_onlyAddsDirs fs (basePathOf g.config)).keeps q _ h
  have h2 := (createDirs_spec (basePathOf g.config) g.structure_.Directories
    (mkdirAll fs (basePathOf g.config)).1).1.keeps q _ h1
  rcases Generate_phases g order fs with ⟨e, _, h⟩ | ⟨_, e, _, h⟩ | ⟨_, _, h⟩ <;> rw [h]
  · exact h1
  · exact h2
  · rw [(writeFiles_spec _ _ _ _).1 q hq]
    exact h2

theorem Generate_post (g : Generator) (order : List (String × String)) (fs : FS)
    (hnd : (order.map (fun e => join (basePathOf g.config) e.1)).Nodup)
    (hok : (Generate g order fs).2 = none) :
    stat (Generate g order fs).1 (basePathOf g.config) = some Node.dir ∧
    (∀ d ∈ g.structure_.Directories,
      stat (Generate g order fs).1 (join (basePathOf g.config) d) = some Node.dir) ∧
    ∀ e ∈ order, Written g.config (basePathOf g.config) (Generate g order fs).1 e := by
  have h1 := mkdirAll_dir fs (basePathOf g.config)
  have h2 := createDirs_spec (basePathOf g.config) g.structure_.Directories
    (mkdirAll fs (basePathOf g.config)).1
  rcases Generate_phases g order fs with ⟨e, _, h⟩ | ⟨_, e, _, h⟩ | ⟨hb, hd, h⟩
  · rw [h] at hok; cases hok
  · rw [h] at hok; cases hok
  · rw [h] at hok ⊢
    obtain ⟨_, hp, hw⟩ := writeFiles_spec g.config (basePathOf g.config) order
      (createDirs (basePathOf g.config) g.structure_.Directories
        (mkdirAll fs (basePathOf g.config)).1).1
    exact ⟨hp.1 _ (h2.1.keeps _ _ (h1 hb)), fun d hd2 => hp.1 _ (h2.2 hd d hd2), hw hok hnd⟩

theorem Generate_fixed (g : Generator) (order : List (String × String)) (fs : FS)
    (hbase : stat fs (basePathOf g.config) = some Node.dir)
    (hdirs : ∀ d ∈ g.structure_.Directories,
      stat fs (join (basePathOf g.config) d) = some Node.dir)
    (hfiles : ∀ e ∈ order, Written g.config (basePathOf g.config) fs e) :
    Generate g order fs = (fs, none) := by
  unfold Generate
  rw [mkdirAll_of_dir fs _ hbase]
  simp only [createDirs_of_dirs _ _ fs hdirs]
  exact writeFiles_fixed _ _ _ _ hfiles

theorem buildStructure_congr (c1 c2 : ProjectConfig) (h : c1.ProjType = c2.ProjType) :
    buildStructure c1 = buildStructure c2 := by
  simp [buildStructure, h]

theorem NewGenerator_structure (config : ProjectConfig) :
    (NewGenerator config).structure_ = buildStructure config := by
  unfold NewGenerator
  split <;> exact buildStructure_congr _ _ rfl

theorem NewGenerator_nodup (config : ProjectConfig) (basePath : Path)
    (order : List (String × String)) (hperm : order.Perm (NewGenerator config).structure_.Files) :
    (order.map (fun e => join basePath e.1)).Nodup := by
  rw [NewGenerator_structure] at hperm
  exact keysOK_nodup (keysOK_buildStructure config) basePath order hperm

/-! ## Facts about delimiters in rendered text -/

theorem hasPair_append (c : Char) (a b : List Char) :
    hasPair c (a ++ b) = (hasPair c a || hasPair c b || (lastIs c a && headIs c b)) := by
  induction a with
  | nil => simp [hasPair, lastIs]
  | cons x t ih =>
    cases t with
    | nil =>
      cases b with
      | nil => simp [hasPair, headIs]
      | cons y r => simp [hasPair, lastIs, headIs, Bool.or_comm]
    | cons y r =>
      simp only [List.cons_append] at ih ⊢
      simp only [hasPair]
      rw [ih]
      simp [lastIs, hasPair, Bool.or_assoc]

theorem hasPair_iff (c : Char) (l : List Char) : hasPair c l = true ↔ [c, c] <:+: l := by
  constructor
  · intro h
    induction l with
    | nil => simp [hasPair] at h
    | cons a t ih =>
      cases t with
      | nil => simp [hasPair] at h
      | cons b r =>
        simp only [hasPair, Bool.or_eq_true, Bool.and_eq_true, beq_iff_eq] at h
        rcases h with ⟨rfl, rfl⟩ | h
        · exact ⟨[], r, rfl⟩
        · exact (ih h).trans (List.suffix_cons a (b :: r)).isInfix
  · rintro ⟨s, t, rfl⟩
    rw [List.append_assoc, hasPair_append]
    simp [hasPair]

theorem occurs_open_iff (s : String) : Occurs "\x7b\x7b" s ↔ hasPair '{' s.data = true :=
  (hasPair_iff '{' s.data).symm

theorem occurs_close_iff (s : String) : Occurs "\x7d\x7d" s ↔ hasPair '}' s.data = true :=
  (hasPair_iff '}' s.data).symm

theorem okText_spec (c : Char) (hc : c = '{' ∨ c = '}') (s : String) (h : okText s = true) :
    s.data ≠ [] ∧ hasPair c s.data = false ∧ headIs c s.data = false ∧
    lastIs c s.data = false := by
  simp only [okText, Bool.and_eq_true, Bool.not_eq_true', List.isEmpty_eq_false] at h
  obtain ⟨⟨⟨⟨⟨⟨h1, h2⟩, h3⟩, h4⟩, h5⟩, h6⟩, h7⟩ := h
  rcases hc with rfl | rfl
  · exact ⟨h1, h2, h4, h6⟩
  · exact ⟨h1, h3, h5, h7⟩

theorem headIs_append (c : Char) (a b : List Char) (h : a ≠ []) :
    headIs c (a ++ b) = headIs c a := by
  cases a with
  | nil => exact absurd rfl h
  | cons x t => rfl

/-- Executing a `sepOK` template with values that hold no pair of `c` succeeds and
gives a text without a pair of `c`. -/
theorem execute_clean (config : ProjectConfig) (c : Char) (hc : c = '{' ∨ c = '}')
    (hv : ∀ f ∈ allowedFields, ∃ v, config.lookup f = some v ∧ hasPair c v.data = false)
    (ns : List TNode) (h : sepOK ns = true) :
    (execute config ns).2 = none ∧ hasPair c (execute config ns).1.data = false ∧
    (startsWithField ns = false → headIs c (execute config ns).1.data = false) := by
  induction ns with
  | nil => simp [execute, hasPair, headIs]
  | cons n rest ih =>
    cases n with
    | text s =>
      simp only [sepOK, Bool.and_eq_true] at h
      obtain ⟨ih1, ih2, _⟩ := ih h.2
      obtain ⟨t1, t2, t3, t4⟩ := okText_spec c hc s h.1
      refine ⟨ih1, ?_, fun _ => ?_⟩
      · simp only [execute, String.data_append, hasPair_append, t2, ih2, t4, Bool.false_and,
          Bool.or_false]
      · simp only [execute, String.data_append]
        rw [headIs_append c _ _ t1, t3]
    | field f =>
      simp only [sepOK, Bool.and_eq_true, decide_eq_true_eq, Bool.not_eq_true'] at h
      obtain ⟨ih1, ih2, ih3⟩ := ih h.2
      obtain ⟨v, hl, hvp⟩ := hv f h.1.1
      refine ⟨?_, ?_, fun hs => ?_⟩
      · simp only [execute, hl]
        exact ih1
      · simp only [execute, hl, String.data_append, hasPair_append, hvp, ih2, ih3 h.1.2,
          Bool.and_false, Bool.or_false]
      · simp [startsWithField] at hs

theorem allTemplates_ok : allTemplates.all templateOK = true := by decide!

theorem templatesOK_of_mem (s : ProjectStructure)
    (h : ∀ e ∈ s.Files, e.2 ∈ allTemplates) : templatesOK s = true := by
  have hall := allTemplates_ok
  rw [List.all_eq_true] at hall
  unfold templatesOK
  rw [List.all_eq_true]
  exact fun e he => hall _ (h e he)

theorem templatesOK_api : templatesOK buildAPIStructure = true := by
  apply templatesOK_of_mem
  intro e he
  simp only [buildAPIStructure, List.mem_cons, List.mem_singleton, List.mem_nil_iff,
    or_false] at he
  rcases he with h | h | h | h | h | h | h | h | h | h | h | h | h <;> rw [h] <;>
    simp [allTemplates]

theorem templatesOK_cli : templatesOK buildCLIStructure = true := by
  apply templatesOK_of_mem
  intro e he
  simp only [buildCLIStructure, List.mem_cons, List.mem_singleton, List.mem_nil_iff,
    or_false] at he
  rcases he with h | h | h | h | h | h | h <;> rw [h] <;> simp [allTemplates]

theorem templatesOK_micro : templatesOK buildMicroserviceStructure = true := by
  apply templatesOK_of_mem
  intro e he
  simp only [buildMicroserviceStructure, List.mem_cons, List.mem_singleton, List.mem_nil_iff,
    or_false] at he
  rcases he with h | h | h | h | h | h | h | h | h | h | h | h | h <;> rw [h] <;>
    simp [allTemplates]

theorem templatesOK_library : templatesOK buildLibraryStructure = true := by
  apply templatesOK_of_mem
  intro e he
  simp only [buildLibraryStructure, List.mem_cons, List.mem_singleton, List.mem_nil_iff,
    or_false] at he
  rcases he with h | h | h | h | h | h | h <;> rw [h] <;> simp [allTemplates]

theorem templatesOK_buildStructure (config : ProjectConfig) :
    templatesOK (buildStructure config) = true := by
  rcases buildStructure_cases config with h | h | h | h <;> rw [h]
  · exact templatesOK_api
  · exact templatesOK_cli
  · exact templatesOK_micro
  · exact templatesOK_library

theorem dirsOK_buildStructure (config : ProjectConfig) : dirsOK (buildStructure config) = true := by
  rcases buildStructure_cases config with h | h | h | h <;> rw [h] <;> decide!

/-! ## Facts shared by the claims -/

theorem basePathOf_NewGenerator (config : ProjectConfig) :
    basePathOf (NewGenerator config).config = basePathOf config := by
  unfold NewGenerator
  split <;> rfl

theorem readme_title : startsWithTitle (parseTemplate readmeTemplate) = true := by
  decide!

theorem components_cli_keys :
    components "go.mod" = ["go.mod"] ∧ components "README.md" = ["README.md"] ∧
    components ".gitignore" = [".gitignore"] ∧ components "Makefile" = ["Makefile"] ∧
    components "cmd/main.go" = ["cmd", "main.go"] := by
  decide!

/-- The file of a written entry whose path is kept as it is. -/
theorem Written.at_components {config : ProjectConfig} {basePath : Path} {fs : FS}
    {e : String × String} (h : Written config basePath fs e) (hp : plainPath e.1 = true) :
    ∃ tmpl, parseTemplate e.2 = .ok tmpl ∧ (execute config tmpl).2 = none ∧
      stat fs (basePath ++ components e.1) = some (Node.file (execute config tmpl).1) := by
  obtain ⟨tmpl, h1, h2, h3, _, _⟩ := h
  rw [join_plain basePath e.1 hp] at h3
  exact ⟨tmpl, h1, h2, h3⟩

theorem NewGenerator_config (config : ProjectConfig) :
    (NewGenerator config).config =
      { config with GoVersion := if config.GoVersion = "" then "1.24" else config.GoVersion } := by
  unfold NewGenerator
  split
  · rfl
  · cases config
    rfl

theorem hasPair_default_version (c : Char) (hc : c = '{' ∨ c = '}') :
    hasPair c ("1.24" : String).data = false := by
  rcases hc with rfl | rfl <;> decide

theorem NewGenerator_lookup (config : ProjectConfig) (c : Char) (hc : c = '{' ∨ c = '}')
    (hvals : ∀ v ∈ [config.Name, config.Module, config.Description, config.Author,
      config.GoVersion], hasPair c v.data = false) :
    ∀ f ∈ allowedFields,
      ∃ v, (NewGenerator config).config.lookup f = some v ∧ hasPair c v.data = false := by
  intro f hf
  rw [NewGenerator_config]
  simp only [allowedFields, List.mem_cons, List.mem_singleton, List.mem_nil_iff,
    or_false] at hf
  rcases hf with rfl | rfl | rfl | rfl | rfl
  · exact ⟨config.Name, by simp [ProjectConfig.lookup], hvals _ (by simp)⟩
  · exact ⟨config.Module, by simp [ProjectConfig.lookup], hvals _ (by simp)⟩
  · exact ⟨config.Description, by simp [ProjectConfig.lookup], hvals _ (by simp)⟩
  · exact ⟨config.Author, by simp [ProjectConfig.lookup], hvals _ (by simp)⟩
  · refine ⟨if config.GoVersion = "" then "1.24" else config.GoVersion,
      by simp [ProjectConfig.lookup], ?_⟩
    split
    · exact hasPair_default_version c hc
    · exact hvals _ (by simp)

/-! ## What Generate can change -/

theorem mkdirAllRev_changes (rp : List String) (fs : FS) (q : Path)
    (h : stat (mkdirAllRev fs rp).1 q ≠ stat fs q) : q <+: rp.reverse := by
  induction rp with
  | nil => exact absurd rfl h
  | cons c parent ih =>
    have hpre : parent.reverse <+: (c :: parent).reverse := by
      rw [List.reverse_cons]
      exact List.prefix_append _ _
    unfold mkdirAllRev at h
    split at h
    · exact absurd rfl h
    · exact absurd rfl h
    · split at h
      · rename_i fs1 e he
        rw [he] at ih
        exact (ih h).trans hpre
      · rename_i fs1 he
        rw [he] at ih
        split at h
        · rename_i fs2 hm
          obtain ⟨_, rfl⟩ := mkdir_ok hm
          by_cases hq : q = (c :: parent).reverse
          · rw [hq]
          · rw [stat_set_ne _ _ _ _ hq] at h
            exact (ih h).trans hpre
        · exact (ih h).trans hpre

theorem mkdirAll_changes (fs : FS) (p q : Path)
    (h : stat (mkdirAll fs p).1 q ≠ stat fs q) : q <+: p := by
  have := mkdirAllRev_changes p.reverse fs q h
  rwa [List.reverse_reverse] at this

theorem createDirs_changes (basePath : Path) (dirs : List String) (fs : FS) (q : Path)
    (h : stat (createDirs basePath dirs fs).1 q ≠ stat fs q) :
    ∃ d ∈ dirs, q <+: join basePath d := by
  induction dirs generalizing fs with
  | nil => exact absurd rfl h
  | cons dir rest ih =>
    by_cases h1 : stat (mkdirAll fs (join basePath dir)).1 q = stat fs q
    · unfold createDirs at h
      split at h
      · rename_i fs1 e he
        rw [he] at h1
        exact absurd h1 h
      · rename_i fs1 he
        rw [he] at h1
        rw [← h1] at h
        obtain ⟨d, hd, hq⟩ := ih fs1 h
        exact ⟨d, List.mem_cons_of_mem _ hd, hq⟩
    · exact ⟨dir, List.mem_cons_self _ _, mkdirAll_changes fs _ q h1⟩

theorem Generate_changes (g : Generator) (order : List (String × String)) (fs : FS) (q : Path)
    (h : stat (Generate g order fs).1 q ≠ stat fs q) :
    q <+: basePathOf g.config ∨
    (∃ d ∈ g.structure_.Directories, q <+: join (basePathOf g.config) d) ∨
    (∃ e ∈ order, q = join (basePathOf g.config) e.1) := by
  by_cases h1 : stat (mkdirAll fs (basePathOf g.config)).1 q = stat fs q
  · by_cases h2 : stat (createDirs (basePathOf g.config) g.structure_.Directories
        (mkdirAll fs (basePathOf g.config)).1).1 q =
        stat (mkdirAll fs (basePathOf g.config)).1 q
    · right; right
      by_contra hno
      push_neg at hno
      apply h
      rcases Generate_phases g order fs with ⟨e, _, hg⟩ | ⟨_, e, _, hg⟩ | ⟨_, _, hg⟩ <;> rw [hg]
      · exact h1
      · exact h2.trans h1
      · rw [(writeFiles_spec _ _ _ _).1 q hno]
        exact h2.trans h1
    · exact Or.inr (Or.inl (createDirs_changes _ _ _ q h2))
  · exact Or.inl (mkdirAll_changes fs _ q h1)

theorem prefix_append_cases (basePath cs q : Path) (h : q <+: basePath ++ cs) :
    q <+: basePath ∨ ∃ p, p ≠ [] ∧ p <+: cs ∧ q = basePath ++ p := by
  rcases List.prefix_or_prefix_of_prefix h (List.prefix_append basePath cs) with h1 | ⟨p, rfl⟩
  · exact Or.inl h1
  · by_cases hp : p = []
    · subst hp
      simp
    · exact Or.inr ⟨p, hp, (List.prefix_append_right_inj basePath).1 h, rfl⟩

/-- Every path a run of Generate changes is the project root, one of its ancestors,
or the root followed by one of the `createdPaths` of the structure. -/
theorem Generate_changes_within (config : ProjectConfig) (order : List (String × String))
    (fs : FS) (q : Path) (hperm : order.Perm (NewGenerator config).structure_.Files)
    (h : stat (Generate (NewGenerator config) order fs).1 q ≠ stat fs q) :
    q <+: basePathOf config ∨
    ∃ p ∈ createdPaths (NewGenerator config).structure_, q = basePathOf config ++ p := by
  have hdirs := dirsOK_buildStructure config
  have hkeys := keysOK_buildStructure config
  rw [← NewGenerator_structure] at hdirs hkeys
  simp only [dirsOK, List.all_eq_true] at hdirs
  rcases Generate_changes _ order fs q h with h1 | ⟨d, hd, h2⟩ | ⟨e, he, h3⟩
  · rw [basePathOf_NewGenerator] at h1
    exact Or.inl h1
  · rw [basePathOf_NewGenerator, join_plain _ d (hdirs d hd)] at h2
    rcases prefix_append_cases _ _ _ h2 with h4 | ⟨p, hp, hpre, rfl⟩
    · exact Or.inl h4
    · refine Or.inr ⟨p, ?_, rfl⟩
      unfold createdPaths
      rw [List.mem_append]
      left
      rw [List.mem_flatMap]
      refine ⟨d, hd, ?_⟩
      rw [List.mem_filter]
      exact ⟨(List.mem_inits _ _).2 hpre, by simpa using hp⟩
  · have hmem := hperm.mem_iff.1 he
    rw [basePathOf_NewGenerator, join_plain _ e.1 (keysOK_plain hkeys e hmem)] at h3
    refine Or.inr ⟨components e.1, ?_, h3⟩
    unfold createdPaths
    rw [List.mem_append]
    right
    exact List.mem_map_of_mem _ hmem

theorem library_created_not_micro :
    ∀ p ∈ createdPaths buildLibraryStructure,
      exclusiveTo buildMicroserviceStructure buildLibraryStructure p = false := by
  decide!

theorem micro_created_library_only :
    ∀ p ∈ createdPaths buildMicroserviceStructure,
      exclusiveTo buildLibraryStructure buildMicroserviceStructure p = true →
        p = ["internal"] := by
  decide!

theorem exclusiveTo_nil :
    exclusiveTo buildMicroserviceStructure buildLibraryStructure [] = false ∧
    exclusiveTo buildLibraryStructure buildMicroserviceStructure [] = false := by
  decide!

/-! ## Facts about a run that stops in the file loop -/

theorem writeFiles_append (config : ProjectConfig) (basePath : Path)
    (pre rest : List (String × String)) (fs : FS)
    (h : (writeFiles config basePath pre fs).2 = none) :
    writeFiles config basePath (pre ++ rest) fs =
      writeFiles config basePath rest (writeFiles config basePath pre fs).1 := by
  induction pre generalizing fs with
  | nil => rfl
  | cons e more ih =>
    rw [List.cons_append]
    rcases hw : writeFile config basePath e.1 e.2 fs with ⟨fs1, _ | err⟩
    · simp only [writeFiles, hw] at h ⊢
      exact ih fs1 h
    · simp only [writeFiles, hw] at h
      cases h

/-- A run that succeeded on the entries `pre` continues, on a longer enumeration,
with the file loop on the remaining entries. -/
theorem Generate_append (g : Generator) (pre rest : List (String × String)) (fs : FS)
    (h : (Generate g pre fs).2 = none) :
    Generate g (pre ++ rest) fs =
      writeFiles g.config (basePathOf g.config) rest (Generate g pre fs).1 := by
  rcases Generate_phases g pre fs with ⟨e, _, hg⟩ | ⟨_, e, _, hg⟩ | ⟨hb, hd, hg⟩
  · rw [hg] at h; cases h
  · rw [hg] at h; cases h
  · rcases Generate_phases g (pre ++ rest) fs with ⟨e, he, _⟩ | ⟨_, e, he, _⟩ | ⟨_, _, hg2⟩
    · rw [hb] at he; cases he
    · rw [hd] at he; cases he
    · rw [hg] at h
      rw [hg2, hg, writeFiles_append _ _ _ _ _ h]

theorem writeFiles_parse_error (config : ProjectConfig) (basePath : Path)
    (filePath content cause : String) (post : List (String × String)) (fs : FS)
    (h : parseTemplate content = .error cause) :
    writeFiles config basePath ((filePath, content) :: post) fs =
      (fs, some (.parseTemplate filePath cause)) := by
  simp only [writeFiles, writeFile, h]

/-! ## Facts about the sequence of calls -/

theorem createDirsTraced_fst (basePath : Path) (dirs : List String) (fs : FS) :
    (createDirsTraced basePath dirs fs).1 = createDirs basePath dirs fs := by
  induction dirs generalizing fs with
  | nil => rfl
  | cons dir rest ih =>
    rcases h : mkdirAll fs (join basePath dir) with ⟨fs1, _ | e⟩
    · simp only [createDirsTraced, createDirs, h]
      exact ih fs1
    · simp only [createDirsTraced, createDirs, h]

theorem writeFileTraced_fst (config : ProjectConfig) (basePath : Path)
    (filePath content : String) (fs : FS) :
    (writeFileTraced config basePath filePath content fs).1 =
      writeFile config basePath filePath content fs := by
  unfold writeFileTraced writeFile
  split
  · rfl
  · split <;> rfl

theorem writeFilesTraced_fst (config : ProjectConfig) (basePath : Path)
    (entries : List (String × String)) (fs : FS) :
    (writeFilesTraced config basePath entries fs).1 = writeFiles config basePath entries fs := by
  induction entries generalizing fs with
  | nil => rfl
  | cons e rest ih =>
    have hw := writeFileTraced_fst config basePath e.1 e.2 fs
    rcases h : writeFileTraced config basePath e.1 e.2 fs with ⟨⟨fs1, _ | err⟩, ops⟩
    · rw [h] at hw
      simp only [writeFilesTraced, writeFiles, h, ← hw]
      exact ih fs1
    · rw [h] at hw
      simp only [writeFilesTraced, writeFiles, h, ← hw]

theorem GenerateTraced_fst (g : Generator) (order : List (String × String)) (fs : FS) :
    (GenerateTraced g order fs).1 = Generate g order fs := by
  unfold GenerateTraced Generate
  rcases h1 : mkdirAll fs (basePathOf g.config) with ⟨fs1, _ | e1⟩
  · dsimp only
    have hc := createDirsTraced_fst (basePathOf g.config) g.structure_.Directories fs1
    rcases h2 : createDirsTraced (basePathOf g.config) g.structure_.Directories fs1 with
      ⟨⟨fs2, _ | e2⟩, ops⟩
    · rw [h2] at hc
      simp only [← hc]
      exact writeFilesTraced_fst _ _ _ _
    · rw [h2] at hc
      simp only [← hc]
  · rfl

/-- The calls of the directory loop: one `MkdirAll` per entry, in order, up to the
first failure; all of them when the loop succeeds. -/
theorem createDirsTraced_ops (basePath : Path) (dirs : List String) (fs : FS) :
    (createDirsTraced basePath dirs fs).2 <+:
      dirs.map (fun d => FsOp.mkdirAll (join basePath d)) ∧
    ((createDirsTraced basePath dirs fs).1.2 = none →
      (createDirsTraced basePath dirs fs).2 =
        dirs.map (fun d => FsOp.mkdirAll (join basePath d))) := by
  induction dirs generalizing fs with
  | nil => exact ⟨List.prefix_refl _, fun _ => rfl⟩
  | cons dir rest ih =>
    rcases h : mkdirAll fs (join basePath dir) with ⟨fs1, _ | e⟩
    · simp only [createDirsTraced, h, List.map_cons]
      obtain ⟨ih1, ih2⟩ := ih fs1
      exact ⟨(List.prefix_cons_inj _).2 ih1, fun hok => by rw [ih2 hok]⟩
    · simp only [createDirsTraced, h, List.map_cons]
      refine ⟨?_, fun hok => by cases hok⟩
      exact ⟨rest.map (fun d => FsOp.mkdirAll (join basePath d)), rfl⟩

theorem writeFileTraced_ops (config : ProjectConfig) (basePath : Path)
    (filePath content : String) (fs : FS) :
    ∀ op ∈ (writeFileTraced config basePath filePath content fs).2, op.isFileOp = true := by
  unfold writeFileTraced
  split
  · simp
  · split <;> simp [FsOp.isFileOp]

theorem writeFilesTraced_ops (config : ProjectConfig) (basePath : Path)
    (entries : List (String × String)) (fs : FS) :
    ∀ op ∈ (writeFilesTraced config basePath entries fs).2, op.isFileOp = true := by
  induction entries generalizing fs with
  | nil => simp [writeFilesTraced]
  | cons e rest ih =>
    have hw := writeFileTraced_ops config basePath e.1 e.2 fs
    rcases h : writeFileTraced config basePath e.1 e.2 fs with ⟨⟨fs1, _ | err⟩, ops⟩
    · rw [h] at hw
      simp only [writeFilesTraced, h]
      intro op hop
      rcases List.mem_append.1 hop with h1 | h1
      · exact hw op h1
      · exact ih fs1 op h1
    · rw [h] at hw
      simp only [writeFilesTraced, h]
      exact hw

/-- The three ways a run can end, with the calls made in each. -/
theorem GenerateTraced_phases (g : Generator) (order : List (String × String)) (fs : FS) :
    (∃ e, (mkdirAll fs (basePathOf g.config)).2 = some e ∧
      (GenerateTraced g order fs).2 = [.mkdirAll (basePathOf g.config)]) ∨
    ((mkdirAll fs (basePathOf g.config)).2 = none ∧
      ∃ e, (createDirs (basePathOf g.config) g.structure_.Directories
          (mkdirAll fs (basePathOf g.config)).1).2 = some e ∧
        (GenerateTraced g order fs).2 = .mkdirAll (basePathOf g.config) ::
          (createDirsTraced (basePathOf g.config) g.structure_.Directories
            (mkdirAll fs (basePathOf g.config)).1).2) ∨
    ((mkdirAll fs (basePathOf g.config)).2 = none ∧
      (createDirs (basePathOf g.config) g.structure_.Directories
          (mkdirAll fs (basePathOf g.config)).1).2 = none ∧
      (GenerateTraced g order fs).2 = .mkdirAll (basePathOf g.config) ::
        (createDirsTraced (basePathOf g.config) g.structure_.Directories
          (mkdirAll fs (basePathOf g.config)).1).2 ++
        (writeFilesTraced g.config (basePathOf g.config) order
          (createDirs (basePathOf g.config) g.structure_.Directories
            (mkdirAll fs (basePathOf g.config)).1).1).2) := by
  unfold GenerateTraced
  rcases h1 : mkdirAll fs (basePathOf g.config) with ⟨fs1, _ | e1⟩
  · dsimp only
    have hc := createDirsTraced_fst (basePathOf g.config) g.structure_.Directories fs1
    rcases h2 : createDirsTraced (basePathOf g.config) g.structure_.Directories fs1 with
      ⟨⟨fs2, _ | e2⟩, ops⟩
    · rw [h2] at hc
      rw [← hc]
      exact Or.inr (Or.inr ⟨rfl, rfl, rfl⟩)
    · rw [h2] at hc
      rw [← hc]
      exact Or.inr (Or.inl ⟨rfl, e2, rfl, rfl⟩)
  · exact Or.inl ⟨e1, rfl, rfl⟩

theorem writeFile_error_kind (config : ProjectConfig) (basePath : Path)
    (filePath content : String) (fs : FS) (e : GenError)
    (h : (writeFile config basePath filePath content fs).2 = some e) :
    e.isDirError = false := by
  unfold writeFile at h
  split at h
  · cases h; rfl
  · split at h
    · cases h; rfl
    · simp only [Option.map_eq_some'] at h
      obtain ⟨_, _, rfl⟩ := h
      rfl

theorem writeFiles_error_kind (config : ProjectConfig) (basePath : Path)
    (entries : List (String × String)) (fs : FS) (e : GenError)
    (h : (writeFiles config basePath entries fs).2 = some e) :
    e.isDirError = false := by
  induction entries generalizing fs with
  | nil => cases h
  | cons x rest ih =>
    have hk := writeFile_error_kind config basePath x.1 x.2 fs
    rcases hw : writeFile config basePath x.1 x.2 fs with ⟨fs1, _ | err⟩
    · simp only [writeFiles, hw] at h
      exact ih fs1 h
    · simp only [writeFiles, hw] at h
      cases h
      exact hk e (by rw [hw])

/-! ## Facts about the order of the file loop -/

theorem writeFile_dir_iff (config : ProjectConfig) (basePath : Path)
    (filePath content : String) (fs : FS) (q : Path) :
    stat (writeFile config basePath filePath content fs).1 q = some Node.dir ↔
      stat fs q = some Node.dir := by
  refine ⟨fun h => ?_, (writeFile_spec config basePath filePath content fs).2.1.1 q⟩
  unfold writeFile at h
  split at h
  · exact h
  · split at h
    · exact h
    · rename_i fs1 hcreate
      obtain ⟨rfl, _, _, hne⟩ := create_ok hcreate
      simp only [set_set] at h
      by_cases hq : q = join basePath filePath
      · subst hq
        rw [stat_set_self _ _ _ hne] at h
        cases h
      · rwa [stat_set_ne _ _ _ _ hq] at h

theorem writeFiles_dir_iff (config : ProjectConfig) (basePath : Path)
    (entries : List (String × String)) (fs : FS) (q : Path) :
    stat (writeFiles config basePath entries fs).1 q = some Node.dir ↔
      stat fs q = some Node.dir := by
  induction entries generalizing fs with
  | nil => rfl
  | cons e rest ih =>
    have hd := writeFile_dir_iff config basePath e.1 e.2 fs q
    rcases hw : writeFile config basePath e.1 e.2 fs with ⟨fs1, _ | err⟩
    · rw [hw] at hd
      simp only [writeFiles, hw]
      exact (ih fs1).trans hd
    · rw [hw] at hd
      simp only [writeFiles, hw]
      exact hd

/-- Whether an entry is ready depends only on which paths are directories. -/
theorem Ready_congr (config : ProjectConfig) (basePath : Path) (fs fs1 : FS)
    (e : String × String)
    (h : ∀ q, stat fs1 q = some Node.dir ↔ stat fs q = some Node.dir) :
    Ready config basePath fs1 e ↔ Ready config basePath fs e := by
  constructor
  · rintro ⟨tmpl, h1, h2, h3, h4⟩
    exact ⟨tmpl, h1, h2, (h _).1 h3, fun hd => h4 ((h _).2 hd)⟩
  · rintro ⟨tmpl, h1, h2, h3, h4⟩
    exact ⟨tmpl, h1, h2, (h _).2 h3, fun hd => h4 ((h _).1 hd)⟩

theorem writeFile_ok_iff (config : ProjectConfig) (basePath : Path) (fs : FS)
    (e : String × String) :
    (writeFile config basePath e.1 e.2 fs).2 = none ↔ Ready config basePath fs e := by
  constructor
  · intro hok
    obtain ⟨_, hp, hs⟩ := writeFile_spec config basePath e.1 e.2 fs
    obtain ⟨tmpl, h1, h2, h3, h4, _⟩ := hs hok
    refine ⟨tmpl, h1, h2, h4, fun hd => ?_⟩
    rw [hp.1 _ hd] at h3
    cases h3
  · rintro ⟨tmpl, h1, h2, h3, h4⟩
    have hc : create fs (join basePath e.1) =
        .ok (fs.set (join basePath e.1) (Node.file "")) := by
      unfold create
      rw [h3]
      dsimp only
      split
      · rename_i hd
        exact absurd hd h4
      · rfl
    unfold writeFile
    rw [h1]
    simp only [hc, h2, Option.map_none']

theorem writeFiles_ok_iff (config : ProjectConfig) (basePath : Path)
    (entries : List (String × String)) (fs : FS) :
    (writeFiles config basePath entries fs).2 = none ↔
      ∀ e ∈ entries, Ready config basePath fs e := by
  induction entries generalizing fs with
  | nil => simp [writeFiles]
  | cons x rest ih =>
    have hx := writeFile_ok_iff config basePath fs x
    have hd := writeFile_dir_iff config basePath x.1 x.2 fs
    rcases hw : writeFile config basePath x.1 x.2 fs with ⟨fs1, _ | err⟩
    · rw [hw] at hx hd
      simp only [writeFiles, hw, List.forall_mem_cons]
      rw [ih fs1]
      constructor
      · intro h
        exact ⟨hx.1 rfl, fun e he => (Ready_congr config basePath fs fs1 e hd).1 (h e he)⟩
      · intro h e he
        exact (Ready_congr config basePath fs fs1 e hd).2 (h.2 e he)
    · rw [hw] at hx
      simp only [writeFiles, hw, List.forall_mem_cons]
      constructor
      · intro h
        cases h
      · intro h
        have := hx.2 h.1
        cases this

/-- Two successful passes of the file loop over the same entries, in any two orders,
leave every path holding the same thing. -/
theorem writeFiles_order (config : ProjectConfig) (basePath : Path)
    (o1 o2 : List (String × String)) (fs : FS) (hperm : o1.Perm o2)
    (hnd : (o1.map (fun e => join basePath e.1)).Nodup)
    (h1 : (writeFiles config basePath o1 fs).2 = none)
    (h2 : (writeFiles config basePath o2 fs).2 = none) (q : Path) :
    stat (writeFiles config basePath o2 fs).1 q = stat (writeFiles config basePath o1 fs).1 q := by
  have hnd2 : (o2.map (fun e => join basePath e.1)).Nodup := (hperm.map _).nodup_iff.1 hnd
  obtain ⟨f1, _, w1⟩ := writeFiles_spec config basePath o1 fs
  obtain ⟨f2, _, w2⟩ := writeFiles_spec config basePath o2 fs
  by_cases hq : ∃ e ∈ o1, q = join basePath e.1
  · obtain ⟨e, he, rfl⟩ := hq
    obtain ⟨t1, p1, _, s1, _⟩ := w1 h1 hnd e he
    obtain ⟨t2, p2, _, s2, _⟩ := w2 h2 hnd2 e (hperm.mem_iff.1 he)
    rw [p1] at p2
    cases p2
    rw [s1, s2]
  · push_neg at hq
    rw [f1 q hq, f2 q (fun e he => hq e (hperm.mem_iff.2 he))]

theorem execute_ok (config : ProjectConfig) (ns : List TNode) (h : sepOK ns = true) :
    (execute config ns).2 = none := by
  induction ns with
  | nil => rfl
  | cons n rest ih =>
    cases n with
    | text s =>
      simp only [sepOK, Bool.and_eq_true] at h
      exact ih h.2
    | field f =>
      simp only [sepOK, Bool.and_eq_true, decide_eq_true_eq] at h
      have hf := h.1.1
      simp only [allowedFields, List.mem_cons, List.mem_singleton, List.mem_nil_iff,
        or_false] at hf
      rcases hf with rfl | rfl | rfl | rfl | rfl <;>
        simp [execute, ProjectConfig.lookup, ih h.2]

theorem parentsOK_buildStructure (config : ProjectConfig) :
    parentsOK (buildStructure config) = true := by
  rcases buildStructure_cases config with h | h | h | h <;> rw [h] <;> decide!

theorem Generate_nil_append (g : Generator) (order : List (String × String)) (fs : FS)
    (h : (Generate g [] fs).2 = none) :
    Generate g order fs = writeFiles g.config (basePathOf g.config) order (Generate g [] fs).1 :=
  Generate_append g [] order fs h

/-- After the directory phase of a catalog run, the parent of every file path is a
directory. -/
theorem catalog_parent_exists (config : ProjectConfig) (fs : FS)
    (hdirs : (Generate (NewGenerator config) [] fs).2 = none) (e : String × String)
    (he : e ∈ (NewGenerator config).structure_.Files) :
    stat (Generate (NewGenerator config) [] fs).1
      (basePathOf config ++ (components e.1).dropLast) = some Node.dir := by
  obtain ⟨hb, hd, _⟩ := Generate_post (NewGenerator config) [] fs (by simp) hdirs
  rw [basePathOf_NewGenerator] at hb hd
  have hpar := parentsOK_buildStructure config
  have hpl := dirsOK_buildStructure config
  rw [← NewGenerator_structure] at hpar hpl
  simp only [parentsOK, List.all_eq_true, Bool.or_eq_true, decide_eq_true_eq] at hpar
  simp only [dirsOK, List.all_eq_true] at hpl
  rcases hpar e he with h | h
  · rw [h, List.append_nil]
    exact hb
  · obtain ⟨d, hdm, hdc⟩ := List.mem_map.1 h
    rw [← hdc, ← join_plain _ d (hpl d hdm)]
    exact hd d hdm

/-- After the directory phase of a catalog run, an entry is ready exactly when its
destination is not a directory. -/
theorem catalog_ready_iff (config : ProjectConfig) (fs : FS)
    (hdirs : (Generate (NewGenerator config) [] fs).2 = none) (e : String × String)
    (he : e ∈ (NewGenerator config).structure_.Files) :
    Ready (NewGenerator config).config (basePathOf config)
        (Generate (NewGenerator config) [] fs).1 e ↔
      stat (Generate (NewGenerator config) [] fs).1 (basePathOf config ++ components e.1) ≠
        some Node.dir := by
  have hk : plainPath e.1 = true := by
    have := keysOK_buildStructure config
    rw [← NewGenerator_structure] at this
    exact keysOK_plain this e he
  have ht : templateOK e.2 = true := by
    have := templatesOK_buildStructure config
    rw [← NewGenerator_structure] at this
    simp only [templatesOK, List.all_eq_true] at this
    exact this e he
  have hj := join_plain (basePathOf config) e.1 hk
  have hpar := catalog_parent_exists config fs hdirs e he
  rw [← List.dropLast_append_of_ne_nil (basePathOf config) (components_ne_nil e.1), ← hj] at hpar
  constructor
  · rintro ⟨_, _, _, _, h4⟩
    rwa [hj] at h4
  · intro h
    unfold templateOK at ht
    split at ht
    · rename_i ns hp
      exact ⟨ns, hp, execute_ok _ ns ht, hpar, by rwa [hj]⟩
    · cases ht

/-! ## Facts about Generate over any engine -/

theorem writeFileWith_model (config : ProjectConfig) (basePath : Path)
    (filePath content : String) (fs : FS) :
    writeFileWith modelEngine config basePath filePath content fs =
      writeFile config basePath filePath content fs := by
  unfold writeFileWith writeFile modelEngine
  cases parseTemplate content with
  | error e => rfl
  | ok tmpl => rfl

theorem writeFilesWith_model (config : ProjectConfig) (basePath : Path)
    (entries : List (String × String)) (fs : FS) :
    writeFilesWith modelEngine config basePath entries fs =
      writeFiles config basePath entries fs := by
  induction entries generalizing fs with
  | nil => rfl
  | cons e rest ih =>
    simp only [writeFilesWith, writeFiles, writeFileWith_model]
    split
    · rfl
    · exact ih _

/-- Over the engine of the model, `GenerateWith` is `Generate`. -/
theorem GenerateWith_model (g : Generator) (order : List (String × String)) (fs : FS) :
    GenerateWith modelEngine g order fs = Generate g order fs := by
  unfold GenerateWith Generate
  simp only [writeFilesWith_model]

theorem writeFileWith_preserves (engine : TemplateEngine) (config : ProjectConfig)
    (basePath : Path) (filePath content : String) (fs : FS) :
    Preserves fs (writeFileWith engine config basePath filePath content fs).1 := by
  unfold writeFileWith
  split
  · exact Preserves.presRefl fs
  · split
    · exact Preserves.presRefl fs
    · rename_i tmpl _ fs1 hcreate
      obtain ⟨rfl, _, hnd, hne⟩ := create_ok hcreate
      simp only [set_set]
      refine ⟨fun q hq => ?_, fun q c hq => ?_⟩
      · by_cases h : q = join basePath filePath
        · subst h; exact absurd hq hnd
        · rw [stat_set_ne _ _ _ _ h]; exact hq
      · by_cases h : q = join basePath filePath
        · subst h; exact ⟨_, stat_set_self fs _ _ hne⟩
        · rw [stat_set_ne _ _ _ _ h]; exact ⟨c, hq⟩

theorem writeFilesWith_preserves (engine : TemplateEngine) (config : ProjectConfig)
    (basePath : Path) (entries : List (String × String)) (fs : FS) :
    Preserves fs (writeFilesWith engine config basePath entries fs).1 := by
  induction entries generalizing fs with
  | nil => exact Preserves.presRefl fs
  | cons e rest ih =>
    have hp := writeFileWith_preserves engine config basePath e.1 e.2 fs
    rcases hw : writeFileWith engine config basePath e.1 e.2 fs with ⟨fs1, _ | err⟩
    · rw [hw] at hp
      simp only [writeFilesWith, hw]
      exact hp.presTrans (ih fs1)
    · rw [hw] at hp
      simp only [writeFilesWith, hw]
      exact hp

theorem GenerateWith_preserves (engine : TemplateEngine) (g : Generator)
    (order : List (String × String)) (fs : FS) :
    Preserves fs (GenerateWith engine g order fs).1 := by
  have h1 := (mkdirAll_onlyAddsDirs fs (basePathOf g.config)).preserves
  unfold GenerateWith
  rcases hm : mkdirAll fs (basePathOf g.config) with ⟨fs1, _ | e1⟩
  · rw [hm] at h1
    dsimp only
    have h2 := (createDirs_spec (basePathOf g.config) g.structure_.Directories fs1).1.preserves
    rcases hc : createDirs (basePathOf g.config) g.structure_.Directories fs1 with
      ⟨fs2, _ | e2⟩
    · rw [hc] at h2
      exact (h1.presTrans h2).presTrans (writeFilesWith_preserves _ _ _ _ _)
    · rw [hc] at h2
      exact h1.presTrans h2
  · rw [hm] at h1
    exact h1

theorem writeFilesWith_append (engine : TemplateEngine) (config : ProjectConfig)
    (basePath : Path) (pre rest : List (String × String)) (fs : FS)
    (h : (writeFilesWith engine config basePath pre fs).2 = none) :
    writeFilesWith engine config basePath (pre ++ rest) fs =
      writeFilesWith engine config basePath rest
        (writeFilesWith engine config basePath pre fs).1 := by
  induction pre generalizing fs with
  | nil => rfl
  | cons e more ih =>
    rw [List.cons_append]
    rcases hw : writeFileWith engine config basePath e.1 e.2 fs with ⟨fs1, _ | err⟩
    · simp only [writeFilesWith, hw] at h ⊢
      exact ih fs1 h
    · simp only [writeFilesWith, hw] at h
      cases h

/-- A run that succeeded on the entries `pre` continues, on a longer enumeration,
with the file loop on the remaining entries. -/
theorem GenerateWith_append (engine : TemplateEngine) (g : Generator)
    (pre rest : List (String × String)) (fs : FS)
    (h : (GenerateWith engine g pre fs).2 = none) :
    GenerateWith engine g (pre ++ rest) fs =
      writeFilesWith engine g.config (basePathOf g.config) rest
        (GenerateWith engine g pre fs).1 := by
  unfold GenerateWith at h ⊢
  rcases hm : mkdirAll fs (basePathOf g.config) with ⟨fs1, _ | e1⟩
  · rw [hm] at h
    dsimp only at h ⊢
    rcases hc : createDirs (basePathOf g.config) g.structure_.Directories fs1 with
      ⟨fs2, _ | e2⟩
    · rw [hc] at h
      dsimp only at h ⊢
      exact writeFilesWith_append _ _ _ _ _ _ h
    · rw [hc] at h
      cases h
  · rw [hm] at h
    cases h

theorem writeFilesWith_parse_error (engine : TemplateEngine) (config : ProjectConfig)
    (basePath : Path) (filePath content cause : String) (post : List (String × String))
    (fs : FS) (h : engine filePath content = .error cause) :
    writeFilesWith engine config basePath ((filePath, content) :: post) fs =
      (fs, some (.parseTemplate filePath cause)) := by
  simp only [writeFilesWith, writeFileWith, h]

/-! ## The claims -/

/-- C1 (code bug): for the library configuration named `mylib`, run on a disk that
has `/tmp/work`, Generate succeeds and writes the library source file under the
literal name `{{.Name}}.go`; no file `mylib.go` exists afterwards.  The placeholder
in the catalog path is not resolved. -/
theorem Generate_library_path_unresolved :
    (Generate (NewGenerator mylibConfig) (NewGenerator mylibConfig).structure_.Files workFS).2
      = none ∧
    isFile (stat
      (Generate (NewGenerator mylibConfig) (NewGenerator mylibConfig).structure_.Files workFS).1
      ["tmp", "work", "mylib", "\x7b\x7b.Name\x7d\x7d.go"]) = true ∧
    stat
      (Generate (NewGenerator mylibConfig) (NewGenerator mylibConfig).structure_.Files workFS).1
      ["tmp", "work", "mylib", "mylib.go"] = none := by
  decide!

/-- C2: for each of the four recognized tags the structure NewGenerator builds has a
non-empty directory list and a non-empty file map, and any two configurations with
that tag get identical directory lists and file maps. -/
theorem buildStructure_deterministic (c1 c2 : ProjectConfig)
    (htag : c1.ProjType ∈
      [ProjectTypeAPI, ProjectTypeCLI, ProjectTypeMicro, ProjectTypeLibrary])
    (hsame : c2.ProjType = c1.ProjType) :
    (NewGenerator c1).structure_.Directories ≠ [] ∧
    (NewGenerator c1).structure_.Files ≠ [] ∧
    (NewGenerator c1).structure_.Directories = (NewGenerator c2).structure_.Directories ∧
    (NewGenerator c1).structure_.Files = (NewGenerator c2).structure_.Files := by
  rw [NewGenerator_structure, NewGenerator_structure, buildStructure_congr c2 c1 hsame]
  simp only [List.mem_cons, List.mem_singleton, List.mem_nil_iff, or_false] at htag
  refine ⟨?_, ?_, rfl, rfl⟩
  · rcases htag with h | h | h | h <;>
      simp [buildStructure, h, ProjectTypeAPI, ProjectTypeCLI, ProjectTypeMicro,
        ProjectTypeLibrary, buildAPIStructure, buildCLIStructure, buildMicroserviceStructure,
        buildLibraryStructure]
  · rcases htag with h | h | h | h <;>
      simp [buildStructure, h, ProjectTypeAPI, ProjectTypeCLI, ProjectTypeMicro,
        ProjectTypeLibrary, buildAPIStructure, buildCLIStructure, buildMicroserviceStructure,
        buildLibraryStructure]

theorem buildStructure_deterministic_witness :
    ordersConfig.ProjType ∈
      [ProjectTypeAPI, ProjectTypeCLI, ProjectTypeMicro, ProjectTypeLibrary] ∧
    (NewGenerator ordersConfig).structure_.Files ≠ [] ∧
    (NewGenerator ordersConfig).structure_.Files =
      (NewGenerator { mylibConfig with ProjType := ProjectTypeCLI }).structure_.Files :=
  ⟨by decide,
   (buildStructure_deterministic ordersConfig { mylibConfig with ProjType := ProjectTypeCLI }
     (by decide) rfl).2.1,
   (buildStructure_deterministic ordersConfig { mylibConfig with ProjType := ProjectTypeCLI }
     (by decide) rfl).2.2.2⟩

/-- C3 (as amended): for a configuration with non-empty name and module and a
recognized archetype, whose name, module, description, author and Go version hold
neither `{{` nor `}}`, after a successful Generate every entry of the directory list
is a directory under the project root, and every entry of the file map has been
written to a file under the project root (at the root joined with the key when the
key holds no `{{`) whose content holds neither `{{` nor `}}`. -/
theorem Generate_tree_rendered (config : ProjectConfig) (order : List (String × String))
    (fs : FS) (_hn : config.Name ≠ "") (_hm : config.Module ≠ "")
    (_ht : config.ProjType ∈
      [ProjectTypeAPI, ProjectTypeCLI, ProjectTypeMicro, ProjectTypeLibrary])
    (hvals : ∀ v ∈ [config.Name, config.Module, config.Description, config.Author,
      config.GoVersion], ¬ Occurs "\x7b\x7b" v ∧ ¬ Occurs "\x7d\x7d" v)
    (hperm : order.Perm (NewGenerator config).structure_.Files)
    (hok : (Generate (NewGenerator config) order fs).2 = none) :
    (∀ d ∈ (NewGenerator config).structure_.Directories,
      stat (Generate (NewGenerator config) order fs).1 (basePathOf config ++ components d) =
        some Node.dir) ∧
    (∀ e ∈ (NewGenerator config).structure_.Files,
      ∃ content rel,
        stat (Generate (NewGenerator config) order fs).1 (basePathOf config ++ rel) =
          some (Node.file content) ∧
        (¬ Occurs "\x7b\x7b" e.1 → rel = components e.1) ∧
        ¬ Occurs "\x7b\x7b" content ∧ ¬ Occurs "\x7d\x7d" content) := by
  obtain ⟨_, hd, hw⟩ := Generate_post (NewGenerator config) order fs
    (NewGenerator_nodup config _ order hperm) hok
  rw [basePathOf_NewGenerator] at hd hw
  have hopen := NewGenerator_lookup config '{' (Or.inl rfl) (fun v hv => by
    have := (hvals v hv).1
    rw [occurs_open_iff] at this
    simpa using this)
  have hclose := NewGenerator_lookup config '}' (Or.inr rfl) (fun v hv => by
    have := (hvals v hv).2
    rw [occurs_close_iff] at this
    simpa using this)
  refine ⟨fun d hdm => ?_, fun e he => ?_⟩
  · have hp : plainPath d = true := by
      have := dirsOK_buildStructure config
      rw [← NewGenerator_structure] at this
      simp only [dirsOK, List.all_eq_true] at this
      exact this d hdm
    rw [← join_plain _ d hp]
    exact hd d hdm
  · have hk : plainPath e.1 = true := by
      have := keysOK_buildStructure config
      rw [← NewGenerator_structure] at this
      exact keysOK_plain this e he
    have ht : templateOK e.2 = true := by
      have := templatesOK_buildStructure config
      rw [← NewGenerator_structure] at this
      simp only [templatesOK, List.all_eq_true] at this
      exact this e he
    obtain ⟨tmpl, h1, _, h3⟩ := (hw e (hperm.mem_iff.2 he)).at_components hk
    unfold templateOK at ht
    rw [h1] at ht
    refine ⟨_, components e.1, h3, fun _ => rfl, ?_, ?_⟩
    · rw [occurs_open_iff, (execute_clean _ '{' (Or.inl rfl) hopen tmpl ht).2.1]
      simp
    · rw [occurs_close_iff, (execute_clean _ '}' (Or.inr rfl) hclose tmpl ht).2.1]
      simp

theorem Generate_tree_rendered_witness :
    (Generate (NewGenerator mylibConfig) (NewGenerator mylibConfig).structure_.Files
      workFS).2 = none ∧
    (∀ d ∈ (NewGenerator mylibConfig).structure_.Directories,
      stat (Generate (NewGenerator mylibConfig) (NewGenerator mylibConfig).structure_.Files
        workFS).1 (basePathOf mylibConfig ++ components d) = some Node.dir) ∧
    (∀ e ∈ (NewGenerator mylibConfig).structure_.Files,
      ∃ content rel,
        stat (Generate (NewGenerator mylibConfig) (NewGenerator mylibConfig).structure_.Files
          workFS).1 (basePathOf mylibConfig ++ rel) = some (Node.file content) ∧
        (¬ Occurs "\x7b\x7b" e.1 → rel = components e.1) ∧
        ¬ Occurs "\x7b\x7b" content ∧ ¬ Occurs "\x7d\x7d" content) :=
  ⟨by decide!,
   Generate_tree_rendered mylibConfig _ workFS (by decide) (by decide) (by decide)
     (fun v hv => by
       rw [occurs_open_iff, occurs_close_iff]
       revert v
       decide!)
     (List.Perm.refl _) (by decide!)⟩

/-- C3 (counterexample): the cli configuration `braceConfig` has a non-empty name and
module and the description `{{`; Generate succeeds on a disk that has `/tmp/work`,
and the content of the generated `README.md` holds `{{`. -/
theorem Generate_content_has_delimiter :
    braceConfig.Name ≠ "" ∧ braceConfig.Module ≠ "" ∧
    braceConfig.ProjType ∈
      [ProjectTypeAPI, ProjectTypeCLI, ProjectTypeMicro, ProjectTypeLibrary] ∧
    (Generate (NewGenerator braceConfig) (NewGenerator braceConfig).structure_.Files
      workFS).2 = none ∧
    ("README.md", readmeTemplate) ∈ (NewGenerator braceConfig).structure_.Files ∧
    ∃ content, stat (Generate (NewGenerator braceConfig)
        (NewGenerator braceConfig).structure_.Files workFS).1
        ["tmp", "work", "orders", "README.md"] = some (Node.file content) ∧
      Occurs "\x7b\x7b" content := by
  have h : fileHasPair '{' (stat (Generate (NewGenerator braceConfig)
      (NewGenerator braceConfig).structure_.Files workFS).1
      ["tmp", "work", "orders", "README.md"]) = true := by decide!
  refine ⟨by decide, by decide, by decide, by decide!, ?_, ?_⟩
  · rw [NewGenerator_structure]
    simp [buildStructure, braceConfig, ProjectTypeCLI, ProjectTypeAPI, buildCLIStructure]
  · revert h
    cases stat (Generate (NewGenerator braceConfig)
      (NewGenerator braceConfig).structure_.Files workFS).1
      ["tmp", "work", "orders", "README.md"] with
    | none => simp [fileHasPair]
    | some n =>
      cases n with
      | dir => simp [fileHasPair]
      | file s =>
        intro h
        exact ⟨s, rfl, (occurs_open_iff s).2 h⟩

/-- C4 (as amended): a path `root ++ p` that did not exist and exists after a run of
Generate is, for the library archetype, never a path that belongs only to the
microservice catalog; for the microservice archetype it is a path that belongs only
to the library catalog in the single case `p = internal`, the directory `MkdirAll`
makes on the way to `internal/handler` and its siblings. -/
theorem Generate_isolation (config : ProjectConfig) (order : List (String × String))
    (fs : FS) (p : Path)
    (hperm : order.Perm (NewGenerator config).structure_.Files)
    (hnew : stat fs (basePathOf config ++ p) = none)
    (hmade : stat (Generate (NewGenerator config) order fs).1 (basePathOf config ++ p) ≠ none) :
    (config.ProjType = ProjectTypeLibrary →
      exclusiveTo buildMicroserviceStructure buildLibraryStructure p = false) ∧
    (config.ProjType = ProjectTypeMicro →
      exclusiveTo buildLibraryStructure buildMicroserviceStructure p = true →
        p = ["internal"]) := by
  have hchg : stat (Generate (NewGenerator config) order fs).1 (basePathOf config ++ p) ≠
      stat fs (basePathOf config ++ p) := by
    rw [hnew]
    exact hmade
  have hin : p = [] ∨ p ∈ createdPaths (NewGenerator config).structure_ := by
    rcases Generate_changes_within config order fs _ hperm hchg with h | ⟨p1, hp1, heq⟩
    · left
      have := h.length_le
      simp only [List.length_append] at this
      exact List.length_eq_zero.1 (by omega)
    · right
      rw [List.append_cancel_left heq]
      exact hp1
  rw [NewGenerator_structure] at hin
  refine ⟨fun ht => ?_, fun ht hex => ?_⟩
  · rcases hin with rfl | hin
    · exact exclusiveTo_nil.1
    · have hs : buildStructure config = buildLibraryStructure := by
        simp [buildStructure, ht, ProjectTypeLibrary, ProjectTypeAPI, ProjectTypeCLI,
          ProjectTypeMicro]
      rw [hs] at hin
      exact library_created_not_micro p hin
  · rcases hin with rfl | hin
    · rw [exclusiveTo_nil.2] at hex
      cases hex
    · have hs : buildStructure config = buildMicroserviceStructure := by
        simp [buildStructure, ht, ProjectTypeMicro, ProjectTypeAPI, ProjectTypeCLI]
      rw [hs] at hin
      exact micro_created_library_only p hin hex

theorem Generate_isolation_witness :
    stat workFS (basePathOf mylibConfig ++ ["docs", "USAGE.md"]) = none ∧
    stat (Generate (NewGenerator mylibConfig) (NewGenerator mylibConfig).structure_.Files
      workFS).1 (basePathOf mylibConfig ++ ["docs", "USAGE.md"]) ≠ none ∧
    exclusiveTo buildMicroserviceStructure buildLibraryStructure ["docs", "USAGE.md"] = false :=
  ⟨by decide!, by decide!,
   (Generate_isolation mylibConfig _ workFS ["docs", "USAGE.md"] (List.Perm.refl _)
     (by decide!) (by decide!)).1 rfl⟩

/-- C4 (counterexample): `internal` is an entry of the library directory list and no
entry of the microservice catalog, and a microservice run on a disk that has
`/tmp/work` makes the directory `/tmp/work/svc/internal`, which did not exist. -/
theorem Generate_micro_makes_internal :
    "internal" ∈ buildLibraryStructure.Directories ∧
    "internal" ∉ buildMicroserviceStructure.Directories ∧
    "internal" ∉ buildMicroserviceStructure.Files.map Prod.fst ∧
    exclusiveTo buildLibraryStructure buildMicroserviceStructure ["internal"] = true ∧
    ["internal"] ∈ createdPaths buildMicroserviceStructure ∧
    (NewGenerator svcConfig).structure_ = buildMicroserviceStructure ∧
    stat workFS ["tmp", "work", "svc", "internal"] = none ∧
    (Generate (NewGenerator svcConfig) (NewGenerator svcConfig).structure_.Files workFS).2 =
      none ∧
    stat (Generate (NewGenerator svcConfig) (NewGenerator svcConfig).structure_.Files workFS).1
      ["tmp", "work", "svc", "internal"] = some Node.dir := by
  refine ⟨by decide!, by decide!, by decide!, by decide!, by decide!, by decide!, by decide!,
    by decide!, by decide!⟩

/-- C5: when a regular file occupies the project root `outputPath/name`, Generate
returns the base-directory error, whose message names that path and the cause
(`not a directory`), and the disk is exactly as it was. -/
theorem Generate_base_occupied (config : ProjectConfig) (order : List (String × String))
    (fs : FS) (content : String)
    (h : stat fs (basePathOf config) = some (Node.file content)) :
    Generate (NewGenerator config) order fs =
      (fs, some (.baseDir ⟨"mkdir", basePathOf config, .ENOTDIR⟩)) ∧
    (GenError.baseDir ⟨"mkdir", basePathOf config, .ENOTDIR⟩).message =
      "failed to create base directory: mkdir " ++ pathString (basePathOf config) ++
        ": not a directory" := by
  refine ⟨?_, ?_⟩
  · unfold Generate
    rw [basePathOf_NewGenerator, mkdirAll_of_file fs _ content h]
  · simp only [GenError.message, PathError.message, Errno.message, String.append_assoc]
    rw [← String.append_assoc]
    rfl

theorem Generate_base_occupied_witness :
    stat occupiedFS (basePathOf ordersConfig) = some (Node.file "not a directory\n") ∧
    Generate (NewGenerator ordersConfig) (NewGenerator ordersConfig).structure_.Files
        occupiedFS =
      (occupiedFS, some (.baseDir ⟨"mkdir", basePathOf ordersConfig, .ENOTDIR⟩)) :=
  ⟨by decide!, (Generate_base_occupied ordersConfig _ occupiedFS "not a directory\n" (by decide!)).1⟩

/-- C6: when a first Generate succeeds, a second Generate with the same
configuration, whatever the order in which it enumerates the file map, succeeds and
returns the very same filesystem state. -/
theorem Generate_idempotent (config : ProjectConfig) (order1 order2 : List (String × String))
    (fs : FS)
    (h1 : order1.Perm (NewGenerator config).structure_.Files)
    (h2 : order2.Perm (NewGenerator config).structure_.Files)
    (hok : (Generate (NewGenerator config) order1 fs).2 = none) :
    Generate (NewGenerator config) order2 (Generate (NewGenerator config) order1 fs).1 =
      ((Generate (NewGenerator config) order1 fs).1, none) := by
  obtain ⟨hb, hd, hw⟩ := Generate_post (NewGenerator config) order1 fs
    (NewGenerator_nodup config _ order1 h1) hok
  exact Generate_fixed (NewGenerator config) order2 _ hb hd
    (fun e he => hw e (h1.mem_iff.2 (h2.mem_iff.1 he)))

theorem Generate_idempotent_witness :
    (Generate (NewGenerator ordersConfig) (NewGenerator ordersConfig).structure_.Files
      workFS).2 = none ∧
    Generate (NewGenerator ordersConfig) (NewGenerator ordersConfig).structure_.Files.reverse
      (Generate (NewGenerator ordersConfig) (NewGenerator ordersConfig).structure_.Files
        workFS).1 =
    ((Generate (NewGenerator ordersConfig) (NewGenerator ordersConfig).structure_.Files
      workFS).1, none) :=
  ⟨by decide!,
   Generate_idempotent ordersConfig _ _ workFS (List.Perm.refl _) (List.reverse_perm _)
     (by decide!)⟩

/-- C7: whether Generate succeeds or fails, a file that existed before and whose
path is not the project root joined with a key of the file map has the same content
afterwards, every directory that existed is still a directory, and every file that
existed is still a file. -/
theorem Generate_frame_effect (config : ProjectConfig) (order : List (String × String))
    (fs : FS) (hperm : order.Perm (NewGenerator config).structure_.Files) :
    (∀ q content, stat fs q = some (Node.file content) →
      (∀ e ∈ (NewGenerator config).structure_.Files, q ≠ join (basePathOf config) e.1) →
      stat (Generate (NewGenerator config) order fs).1 q = some (Node.file content)) ∧
    (∀ q, stat fs q = some Node.dir →
      stat (Generate (NewGenerator config) order fs).1 q = some Node.dir) ∧
    (∀ q content, stat fs q = some (Node.file content) →
      ∃ c1, stat (Generate (NewGenerator config) order fs).1 q = some (Node.file c1)) := by
  refine ⟨fun q content hq hne => ?_, (Generate_preserves _ order fs).1,
    (Generate_preserves _ order fs).2⟩
  apply Generate_frame _ order fs q content _ hq
  intro e he
  rw [basePathOf_NewGenerator]
  exact hne e (hperm.mem_iff.1 he)

theorem Generate_frame_effect_witness :
    stat notesFS ["tmp", "work", "orders", "notes.txt"] = some (Node.file "keep me\n") ∧
    stat (Generate (NewGenerator ordersConfig) (NewGenerator ordersConfig).structure_.Files
      notesFS).1 ["tmp", "work", "orders", "notes.txt"] = some (Node.file "keep me\n") :=
  ⟨by decide!,
   (Generate_frame_effect ordersConfig _ notesFS (List.Perm.refl _)).1 _ _ (by decide!)
     (by decide!)⟩

/-- C8: the switch on the `-type` flag maps `api`, `cli`, `microservice` and `library`
to their own tag, `micro` to microservice and `lib` to library; every other string is
rejected with the `invalid project type` message and no generator is constructed; so
the switch succeeds exactly on those six strings. -/
theorem canonicalType_spec :
    canonicalType "api" = .ok ProjectTypeAPI ∧
    canonicalType "cli" = .ok ProjectTypeCLI ∧
    canonicalType "microservice" = .ok ProjectTypeMicro ∧
    canonicalType "library" = .ok ProjectTypeLibrary ∧
    canonicalType "micro" = .ok ProjectTypeMicro ∧
    canonicalType "lib" = .ok ProjectTypeLibrary ∧
    (∀ s, s ∉ acceptedTypes → canonicalType s = .error ("invalid project type \x27" ++ s ++
      "\x27. Must be one of: api, cli, microservice, library")) ∧
    (∀ abs f, f.projectType ∉ acceptedTypes → ∀ g, prepareGenerator abs f ≠ .ok g) ∧
    (∀ s, (∃ t, canonicalType s = .ok t) ↔ s ∈ acceptedTypes) := by
  have hrej : ∀ s, s ∉ acceptedTypes → canonicalType s = .error ("invalid project type \x27" ++
      s ++ "\x27. Must be one of: api, cli, microservice, library") := by
    intro s hs
    simp only [acceptedTypes, List.mem_cons, List.mem_singleton, not_or, List.mem_nil_iff,
      or_false] at hs
    simp [canonicalType, hs]
  have hacc : canonicalType "api" = .ok ProjectTypeAPI ∧
      canonicalType "cli" = .ok ProjectTypeCLI ∧
      canonicalType "microservice" = .ok ProjectTypeMicro ∧
      canonicalType "library" = .ok ProjectTypeLibrary ∧
      canonicalType "micro" = .ok ProjectTypeMicro ∧
      canonicalType "lib" = .ok ProjectTypeLibrary := by
    simp [canonicalType]
  obtain ⟨h1, h2, h3, h4, h5, h6⟩ := hacc
  refine ⟨h1, h2, h3, h4, h5, h6, hrej, ?_, ?_⟩
  · intro abs f hf g
    unfold prepareGenerator
    rw [hrej _ hf]
    split
    · simp
    · split <;> simp
  · intro s
    constructor
    · rintro ⟨t, ht⟩
      by_contra hs
      rw [hrej s hs] at ht
      cases ht
    · intro hs
      simp only [acceptedTypes, List.mem_cons, List.mem_singleton, List.mem_nil_iff,
        or_false] at hs
      rcases hs with rfl | rfl | rfl | rfl | rfl | rfl
      · exact ⟨_, h1⟩
      · exact ⟨_, h2⟩
      · exact ⟨_, h3⟩
      · exact ⟨_, h5⟩
      · exact ⟨_, h4⟩
      · exact ⟨_, h6⟩

/-- C9: for every tag that is not one of `api`, `cli`, `microservice`, `library`,
buildStructure yields the directory list and the file map of the API archetype. -/
theorem buildStructure_fallback (config : ProjectConfig)
    (h : config.ProjType ∉
      [ProjectTypeAPI, ProjectTypeCLI, ProjectTypeMicro, ProjectTypeLibrary]) :
    buildStructure config = buildStructure { config with ProjType := ProjectTypeAPI } ∧
    (NewGenerator config).structure_.Directories = buildAPIStructure.Directories ∧
    (NewGenerator config).structure_.Files = buildAPIStructure.Files := by
  simp only [List.mem_cons, List.mem_singleton, not_or, List.mem_nil_iff, or_false] at h
  have h1 : buildStructure config = buildAPIStructure := by
    simp [buildStructure, h]
  have h2 : buildStructure { config with ProjType := ProjectTypeAPI } = buildAPIStructure := by
    simp [buildStructure]
  rw [NewGenerator_structure, h1, h2]
  exact ⟨rfl, rfl, rfl⟩

theorem buildStructure_fallback_witness :
    ("micro" : String) ∉
      [ProjectTypeAPI, ProjectTypeCLI, ProjectTypeMicro, ProjectTypeLibrary] ∧
    (NewGenerator { svcConfig with ProjType := "micro" }).structure_.Directories =
      buildAPIStructure.Directories ∧
    (NewGenerator { svcConfig with ProjType := "" }).structure_.Files =
      buildAPIStructure.Files :=
  ⟨by decide,
   (buildStructure_fallback { svcConfig with ProjType := "micro" } (by decide)).2.1,
   (buildStructure_fallback { svcConfig with ProjType := "" } (by decide)).2.2⟩

/-- C10: for a cli configuration (name and module non-empty), the file map has
`go.mod`, `README.md`, `.gitignore`, `Makefile` and `cmd/main.go`, and after a
successful Generate these five are files under the project root, the content of
`README.md` containing the project name. -/
theorem Generate_cli_scenario (config : ProjectConfig) (order : List (String × String))
    (fs : FS) (_hn : config.Name ≠ "") (_hm : config.Module ≠ "")
    (ht : config.ProjType = ProjectTypeCLI)
    (hperm : order.Perm (NewGenerator config).structure_.Files)
    (hok : (Generate (NewGenerator config) order fs).2 = none) :
    (∀ k ∈ ["go.mod", "README.md", ".gitignore", "Makefile", "cmd/main.go"],
      k ∈ (NewGenerator config).structure_.Files.map Prod.fst) ∧
    isFile (stat (Generate (NewGenerator config) order fs).1
      (basePathOf config ++ ["go.mod"])) = true ∧
    isFile (stat (Generate (NewGenerator config) order fs).1
      (basePathOf config ++ [".gitignore"])) = true ∧
    isFile (stat (Generate (NewGenerator config) order fs).1
      (basePathOf config ++ ["Makefile"])) = true ∧
    isFile (stat (Generate (NewGenerator config) order fs).1
      (basePathOf config ++ ["cmd", "main.go"])) = true ∧
    ∃ readme, stat (Generate (NewGenerator config) order fs).1
        (basePathOf config ++ ["README.md"]) = some (Node.file readme) ∧
      Occurs config.Name readme := by
  have hs : (NewGenerator config).structure_ = buildCLIStructure := by
    rw [NewGenerator_structure]
    simp [buildStructure, ht, ProjectTypeCLI, ProjectTypeAPI]
  obtain ⟨_, _, hw⟩ := Generate_post (NewGenerator config) order fs
    (NewGenerator_nodup config _ order hperm) hok
  rw [basePathOf_NewGenerator] at hw
  rw [hs] at hperm
  have hfile : ∀ e ∈ buildCLIStructure.Files,
      ∃ tmpl, parseTemplate e.2 = .ok tmpl ∧
        stat (Generate (NewGenerator config) order fs).1 (basePathOf config ++ components e.1) =
          some (Node.file (execute (NewGenerator config).config tmpl).1) := by
    intro e he
    obtain ⟨tmpl, h1, _, h3⟩ := (hw e (hperm.mem_iff.2 he)).at_components
      (keysOK_plain keysOK_cli e he)
    exact ⟨tmpl, h1, h3⟩
  obtain ⟨c1, c2, c3, c4, c5⟩ := components_cli_keys
  refine ⟨?_, ?_, ?_, ?_, ?_, ?_⟩
  · rw [hs]
    simp [buildCLIStructure]
  · obtain ⟨_, _, h⟩ := hfile ("go.mod", goModTemplate) (by simp [buildCLIStructure])
    rw [c1] at h
    rw [h]; rfl
  · obtain ⟨_, _, h⟩ := hfile (".gitignore", gitignoreTemplate) (by simp [buildCLIStructure])
    rw [c3] at h
    rw [h]; rfl
  · obtain ⟨_, _, h⟩ := hfile ("Makefile", makefileCLITemplate) (by simp [buildCLIStructure])
    rw [c4] at h
    rw [h]; rfl
  · obtain ⟨_, _, h⟩ := hfile ("cmd/main.go", mainCLITemplate) (by simp [buildCLIStructure])
    rw [c5] at h
    rw [h]; rfl
  · obtain ⟨tmpl, hp, h⟩ := hfile ("README.md", readmeTemplate) (by simp [buildCLIStructure])
    rw [c2] at h
    refine ⟨_, h, ?_⟩
    have ht := readme_title
    simp only at hp
    rw [hp] at ht
    match tmpl, ht with
    | TNode.text s :: TNode.field f :: rest, ht =>
      simp only [startsWithTitle, Bool.and_eq_true, beq_iff_eq] at ht
      obtain ⟨rfl, rfl⟩ := ht
      have hname : (NewGenerator config).config.Name = config.Name := by
        unfold NewGenerator
        split <;> rfl
      refine ⟨"# ".data, (execute (NewGenerator config).config rest).1.data, ?_⟩
      simp [execute, ProjectConfig.lookup, hname, String.data_append]

theorem Generate_cli_scenario_witness :
    basePathOf ordersConfig = ["tmp", "work", "orders"] ∧
    (Generate (NewGenerator ordersConfig) (NewGenerator ordersConfig).structure_.Files
      workFS).2 = none ∧
    isFile (stat (Generate (NewGenerator ordersConfig)
      (NewGenerator ordersConfig).structure_.Files workFS).1
      (basePathOf ordersConfig ++ ["cmd", "main.go"])) = true ∧
    ∃ readme, stat (Generate (NewGenerator ordersConfig)
        (NewGenerator ordersConfig).structure_.Files workFS).1
        (basePathOf ordersConfig ++ ["README.md"]) = some (Node.file readme) ∧
      Occurs "orders" readme :=
  ⟨by decide!, by decide!,
   (Generate_cli_scenario ordersConfig _ workFS (by decide) (by decide) rfl
     (List.Perm.refl _) (by decide!)).2.2.2.2.1,
   (Generate_cli_scenario ordersConfig _ workFS (by decide) (by decide) rfl
     (List.Perm.refl _) (by decide!)).2.2.2.2.2⟩

/-- C11: whatever `text/template` does with a body, when the run has succeeded on the
entries enumerated so far and the parse of the next entry's body fails, Generate
returns the parse error naming that entry's file path, and the disk is exactly as the
earlier entries left it: nothing is created or truncated at the entry's destination,
no later entry is processed, and what existed or was written before stays. -/
theorem Generate_parse_failure (engine : TemplateEngine) (g : Generator)
    (pre post : List (String × String)) (filePath content cause : String) (fs : FS)
    (hparse : engine filePath content = .error cause)
    (hpre : (GenerateWith engine g pre fs).2 = none) :
    GenerateWith engine g (pre ++ (filePath, content) :: post) fs =
      ((GenerateWith engine g pre fs).1, some (.parseTemplate filePath cause)) ∧
    (GenError.parseTemplate filePath cause).message =
      "failed to parse template for " ++ filePath ++ ": " ++ cause ∧
    stat (GenerateWith engine g (pre ++ (filePath, content) :: post) fs).1
        (join (basePathOf g.config) filePath) =
      stat (GenerateWith engine g pre fs).1 (join (basePathOf g.config) filePath) ∧
    Preserves fs (GenerateWith engine g (pre ++ (filePath, content) :: post) fs).1 := by
  have h : GenerateWith engine g (pre ++ (filePath, content) :: post) fs =
      ((GenerateWith engine g pre fs).1, some (.parseTemplate filePath cause)) := by
    rw [GenerateWith_append engine g pre _ fs hpre]
    exact writeFilesWith_parse_error _ _ _ _ _ _ _ _ hparse
  refine ⟨h, rfl, ?_, ?_⟩
  · rw [h]
  · rw [h]
    exact GenerateWith_preserves engine g pre fs

theorem Generate_parse_failure_witness :
    modelEngine "bad.txt" "package \x7b\x7b.Name\n" = .error "unclosed action" ∧
    (GenerateWith modelEngine brokenGenerator [("a.txt", "hello \x7b\x7b.Name\x7d\x7d\n")]
      workFS).2 = none ∧
    Generate brokenGenerator brokenGenerator.structure_.Files workFS =
      ((GenerateWith modelEngine brokenGenerator
          [("a.txt", "hello \x7b\x7b.Name\x7d\x7d\n")] workFS).1,
        some (.parseTemplate "bad.txt" "unclosed action")) ∧
    stat (Generate brokenGenerator brokenGenerator.structure_.Files workFS).1
      ["tmp", "work", "orders", "a.txt"] = some (Node.file "hello orders\n") ∧
    stat (Generate brokenGenerator brokenGenerator.structure_.Files workFS).1
      ["tmp", "work", "orders", "bad.txt"] = none ∧
    stat (Generate brokenGenerator brokenGenerator.structure_.Files workFS).1
      ["tmp", "work", "orders", "c.txt"] = none := by
  have hp : modelEngine "bad.txt" "package \x7b\x7b.Name\n" = .error "unclosed action" := by
    simp [modelEngine, parseTemplate, parseAux]
  have hok : (GenerateWith modelEngine brokenGenerator
      [("a.txt", "hello \x7b\x7b.Name\x7d\x7d\n")] workFS).2 = none := by decide!
  have hrun := (Generate_parse_failure modelEngine brokenGenerator
    [("a.txt", "hello \x7b\x7b.Name\x7d\x7d\n")] [("c.txt", "never written\n")] "bad.txt"
    "package \x7b\x7b.Name\n" "unclosed action" workFS hp hok).1
  rw [GenerateWith_model] at hrun
  exact ⟨hp, hok, hrun, by decide!, by decide!, by decide!⟩

/-- C12: the calls a run of Generate makes on the filesystem are a run of `MkdirAll`
calls (the project root, then the listed directories in order) followed by calls
that create and write files; when a file call is made, every `MkdirAll` has been
made and has succeeded; and when the run ends with a directory error no file call
has been made and the disk differs from the initial one only by added directories. -/
theorem Generate_ordering (g : Generator) (order : List (String × String)) (fs : FS) :
    (GenerateTraced g order fs).1 = Generate g order fs ∧
    (∃ dirCalls fileCalls,
      (GenerateTraced g order fs).2 = dirCalls ++ fileCalls ∧
      dirCalls <+: dirOps g ∧
      (∀ op ∈ fileCalls, op.isFileOp = true) ∧
      (fileCalls ≠ [] →
        dirCalls = dirOps g ∧
        stat (Generate g order fs).1 (basePathOf g.config) = some Node.dir ∧
        ∀ d ∈ g.structure_.Directories,
          stat (Generate g order fs).1 (join (basePathOf g.config) d) = some Node.dir)) ∧
    (∀ e, (Generate g order fs).2 = some e → e.isDirError = true →
      (∀ op ∈ (GenerateTraced g order fs).2, op.isFileOp = false) ∧
      OnlyAddsDirs fs (Generate g order fs).1) := by
  have hbase := mkdirAll_onlyAddsDirs fs (basePathOf g.config)
  have hbdir := mkdirAll_dir fs (basePathOf g.config)
  have hdirs := createDirs_spec (basePathOf g.config) g.structure_.Directories
    (mkdirAll fs (basePathOf g.config)).1
  have hops := createDirsTraced_ops (basePathOf g.config) g.structure_.Directories
    (mkdirAll fs (basePathOf g.config)).1
  rw [createDirsTraced_fst] at hops
  have hmk : ∀ op ∈ (createDirsTraced (basePathOf g.config) g.structure_.Directories
      (mkdirAll fs (basePathOf g.config)).1).2, op.isFileOp = false := by
    intro op hop
    obtain ⟨d, _, rfl⟩ := List.mem_map.1 (hops.1.subset hop)
    rfl
  refine ⟨GenerateTraced_fst g order fs, ?_, ?_⟩
  · rcases GenerateTraced_phases g order fs with ⟨e, _, ht⟩ | ⟨_, e, _, ht⟩ | ⟨hb, hd, ht⟩
    · refine ⟨[.mkdirAll (basePathOf g.config)], [], by rw [ht]; rfl, ?_, by simp,
        fun h => absurd rfl h⟩
      exact ⟨_, rfl⟩
    · refine ⟨_, [], by rw [ht, List.append_nil], ?_, by simp, fun h => absurd rfl h⟩
      exact (List.prefix_cons_inj _).2 hops.1
    · refine ⟨dirOps g, (writeFilesTraced g.config (basePathOf g.config) order
          (createDirs (basePathOf g.config) g.structure_.Directories
            (mkdirAll fs (basePathOf g.config)).1).1).2, ?_, List.prefix_refl _,
        writeFilesTraced_ops _ _ _ _, fun _ => ?_⟩
      · rw [ht, hops.2 hd]
        rfl
      · rcases Generate_phases g order fs with ⟨e, he, _⟩ | ⟨_, e, he, _⟩ | ⟨_, _, hg⟩
        · rw [hb] at he; cases he
        · rw [hd] at he; cases he
        · rw [hg]
          have hp := (writeFiles_spec g.config (basePathOf g.config) order
            (createDirs (basePathOf g.config) g.structure_.Directories
              (mkdirAll fs (basePathOf g.config)).1).1).2.1
          exact ⟨rfl, hp.1 _ (hdirs.1.keeps _ _ (hbdir hb)),
            fun d hdm => hp.1 _ (hdirs.2 hd d hdm)⟩
  · intro e he hkind
    rcases Generate_phases g order fs with ⟨e1, hb, hg⟩ | ⟨hb, e1, hd, hg⟩ | ⟨hb, hd, hg⟩
    · rcases GenerateTraced_phases g order fs with ⟨_, _, ht⟩ | ⟨h, _⟩ | ⟨h, _⟩
      · rw [ht, hg]
        exact ⟨by simp [FsOp.isFileOp], hbase⟩
      · rw [hb] at h; cases h
      · rw [hb] at h; cases h
    · rcases GenerateTraced_phases g order fs with ⟨_, h, _⟩ | ⟨_, _, _, ht⟩ | ⟨_, h, _⟩
      · rw [hb] at h; cases h
      · rw [ht, hg]
        refine ⟨fun op hop => ?_, hbase.addsTrans hdirs.1⟩
        rcases List.mem_cons.1 hop with rfl | hop
        · rfl
        · exact hmk op hop
      · rw [hd] at h; cases h
    · rw [hg] at he
      rw [writeFiles_error_kind _ _ _ _ e he] at hkind
      cases hkind

/-- C12 (instance): on a disk where a file occupies `/tmp/work/orders/internal`, the
microservice run for `orders` stops at the directory `internal/handler`; it has made
two `MkdirAll` calls and no file call, and no file of the file map exists. -/
theorem Generate_ordering_blocked :
    (Generate (NewGenerator { ordersConfig with ProjType := ProjectTypeMicro })
      buildMicroserviceStructure.Files blockedFS).2 =
      some (.directory "internal/handler"
        ⟨"mkdir", ["tmp", "work", "orders", "internal"], .ENOTDIR⟩) ∧
    (GenerateTraced (NewGenerator { ordersConfig with ProjType := ProjectTypeMicro })
      buildMicroserviceStructure.Files blockedFS).2 =
      [.mkdirAll ["tmp", "work", "orders"],
       .mkdirAll ["tmp", "work", "orders", "cmd", "server"],
       .mkdirAll ["tmp", "work", "orders", "internal", "handler"]] ∧
    stat (Generate (NewGenerator { ordersConfig with ProjType := ProjectTypeMicro })
      buildMicroserviceStructure.Files blockedFS).1 ["tmp", "work", "orders", "go.mod"] =
      none := by
  refine ⟨by decide!, by decide!, by decide!⟩

/-- C13: in each of the four catalogs the parent of every file path is the project
root or an entry of the directory list.  So, once the directory phase of a run has
succeeded, the parent of every file path is a directory; whether the creation of a
file succeeds depends only on its destination not being a directory, not on the
entries processed before it; and successful runs leave the same disk whatever the
order in which the file map is enumerated. -/
theorem catalog_wellformed (config : ProjectConfig) (fs : FS)
    (hdirs : (Generate (NewGenerator config) [] fs).2 = none) :
    (parentsOK buildAPIStructure = true ∧ parentsOK buildCLIStructure = true ∧
      parentsOK buildMicroserviceStructure = true ∧ parentsOK buildLibraryStructure = true) ∧
    (∀ e ∈ (NewGenerator config).structure_.Files,
      stat (Generate (NewGenerator config) [] fs).1
        (basePathOf config ++ (components e.1).dropLast) = some Node.dir) ∧
    (∀ pre e, e ∈ (NewGenerator config).structure_.Files →
      (Generate (NewGenerator config) pre fs).2 = none →
      ((Generate (NewGenerator config) (pre ++ [e]) fs).2 = none ↔
        stat (Generate (NewGenerator config) [] fs).1 (basePathOf config ++ components e.1) ≠
          some Node.dir)) ∧
    (∀ order1 order2, order1.Perm (NewGenerator config).structure_.Files →
      order2.Perm (NewGenerator config).structure_.Files →
      (Generate (NewGenerator config) order1 fs).2 = none →
      (Generate (NewGenerator config) order2 fs).2 = none ∧
      ∀ q, stat (Generate (NewGenerator config) order2 fs).1 q =
        stat (Generate (NewGenerator config) order1 fs).1 q) := by
  have hbase := basePathOf_NewGenerator config
  refine ⟨⟨by decide!, by decide!, by decide!, by decide!⟩,
    catalog_parent_exists config fs hdirs, ?_, ?_⟩
  · intro pre e he hpre
    rw [← catalog_ready_iff config fs hdirs e he, Generate_append _ pre [e] fs hpre,
      Generate_nil_append _ pre fs hdirs, hbase]
    have hstep : (writeFiles (NewGenerator config).config (basePathOf config) [e]
        (writeFiles (NewGenerator config).config (basePathOf config) pre
          (Generate (NewGenerator config) [] fs).1).1).2 = none ↔
        Ready (NewGenerator config).config (basePathOf config)
          (writeFiles (NewGenerator config).config (basePathOf config) pre
            (Generate (NewGenerator config) [] fs).1).1 e := by
      rw [writeFiles_ok_iff]
      simp
    rw [hstep]
    exact Ready_congr _ _ _ _ e (writeFiles_dir_iff _ _ pre _)
  · intro order1 order2 h1 h2 hok
    rw [Generate_nil_append _ order1 fs hdirs, hbase] at hok ⊢
    rw [Generate_nil_append _ order2 fs hdirs, hbase]
    have hperm : order1.Perm order2 := h1.trans h2.symm
    have hok2 : (writeFiles (NewGenerator config).config (basePathOf config) order2
        (Generate (NewGenerator config) [] fs).1).2 = none := by
      rw [writeFiles_ok_iff] at hok ⊢
      exact fun e he => hok e (hperm.mem_iff.2 he)
    exact ⟨hok2, writeFiles_order _ _ order1 order2 _ hperm
      (NewGenerator_nodup config _ order1 h1) hok hok2⟩

theorem catalog_wellformed_witness :
    (Generate (NewGenerator ordersConfig) [] workFS).2 = none ∧
    stat (Generate (NewGenerator ordersConfig) [] workFS).1
      (basePathOf ordersConfig ++ (components "cmd/main.go").dropLast) = some Node.dir ∧
    (Generate (NewGenerator ordersConfig) (NewGenerator ordersConfig).structure_.Files
      workFS).2 = none ∧
    (Generate (NewGenerator ordersConfig)
      (NewGenerator ordersConfig).structure_.Files.reverse workFS).2 = none ∧
    ∀ q, stat (Generate (NewGenerator ordersConfig)
        (NewGenerator ordersConfig).structure_.Files.reverse workFS).1 q =
      stat (Generate (NewGenerator ordersConfig)
        (NewGenerator ordersConfig).structure_.Files workFS).1 q := by
  have hd : (Generate (NewGenerator ordersConfig) [] workFS).2 = none := by decide!
  have hok : (Generate (NewGenerator ordersConfig)
      (NewGenerator ordersConfig).structure_.Files workFS).2 = none := by decide!
  exact ⟨hd,
    (catalog_wellformed ordersConfig workFS hd).2.1 ("cmd/main.go", mainCLITemplate)
      (by decide!),
    hok,
    ((catalog_wellformed ordersConfig workFS hd).2.2.2 _ _ (List.Perm.refl _)
      (List.reverse_perm _) hok).1,
    ((catalog_wellformed ordersConfig workFS hd).2.2.2 _ _ (List.Perm.refl _)
      (List.reverse_perm _) hok).2⟩

end GenProjo
